import Mathlib

/-!
Verification development for the safe-gmx trading orchestrator.

The definitions below are a shallow embedding of the TypeScript services:
`TradeStateManager`, `ApiSignalProcessor`, `PositionSizingService`,
`TradeExecutionService` (allowance phase) and `PriceMonitoringService`.
JavaScript numbers are modelled as exact rationals (`ℚ`), BigInt as `ℤ`/`ℕ`,
`Date` values as integer timestamps (`ℤ`), and JS `Map`s as association
lists keyed by `Nat` identifiers.  `Date` construction timestamps that no
claim depends on are omitted.  Falsy-coalescing (`x || d`) on numbers is
modelled by `jsOrQ`, where `none` stands for `undefined`.
-/

/-- JS numeric `x || d`: `undefined` (here `none`) and `0` fall back to `d`. -/
def jsOrQ : Option ℚ → ℚ → ℚ
  | none, d => d
  | some x, d => if x = 0 then d else x

/-- Association-list lookup, the model of `Map.get`. -/
def mapGet {α : Type} : List (Nat × α) → Nat → Option α
  | [], _ => none
  | (k, v) :: rest, id => if k = id then some v else mapGet rest id

/-- Model of `Map.set`: replace the binding when the key is present, else append. -/
def mapSet {α : Type} : List (Nat × α) → Nat → α → List (Nat × α)
  | [], k, v => [(k, v)]
  | (k1, v1) :: rest, k, v =>
    if k1 = k then (k, v) :: rest else (k1, v1) :: mapSet rest k v

/-- Model of `Map.delete`. -/
def mapDelete {α : Type} : List (Nat × α) → Nat → List (Nat × α)
  | [], _ => []
  | (k1, v1) :: rest, k =>
    if k1 = k then mapDelete rest k else (k1, v1) :: mapDelete rest k

/-! ## TradeStateManager (src/services/TradeStateManager.ts)

Trade identifiers (`uuidv4` in the source) are modelled by a monotone
counter `nextTradeId`; the source's `userTrades` per-user index and the
`executionQueue` are outside every claim's scope and are not modelled. -/

/-- The exact status alphabet of `TradeEntry.status` in the source. -/
inductive TradeStatus
  | pending
  | entered
  | partially_exited
  | fully_exited
  | stopped_out
  | expired
  | failed
  deriving DecidableEq

/-- The exit-type alphabet of `TradeExitEvent.exitType`. -/
inductive ExitType
  | TP1
  | TP2
  | STOP_LOSS
  | TRAILING_STOP
  | MAX_EXIT_TIME
  | MANUAL
  deriving DecidableEq

/-- A `TradeExitEvent` (the construction timestamp is omitted). -/
structure TradeExitEvent where
  exitType : ExitType
  exitPrice : ℚ
  exitAmount : String
  exitPercentage : ℚ
  txHash : Option String
  profitLoss : ℚ
  deriving DecidableEq

/-- A `TradeEntry` record; `entryTimestamp`/`updatedAt`/`metadata` are omitted. -/
structure TradeEntry where
  tradeId : Nat
  userId : String
  signalId : String
  safeAddress : String
  networkKey : String
  tokenSymbol : String
  entryPrice : ℚ
  entryAmount : String
  tp1 : ℚ
  tp2 : ℚ
  stopLoss : ℚ
  maxExitTime : ℤ
  status : TradeStatus
  entryTxHash : Option String
  exitTxHashes : List String
  exitEvents : List TradeExitEvent
  deriving DecidableEq

/-- The `signalData` fields read by `createTradeEntry`; `target2 = none`
models an absent `targets[1]`. -/
structure SignalData where
  currentPrice : ℚ
  target1 : ℚ
  target2 : Option ℚ
  stopLoss : ℚ
  maxExitTime : ℤ
  deriving DecidableEq

/-- The two trade maps of `TradeStateManager` plus the id-minting counter. -/
structure TradeStateManager where
  activeTrades : List (Nat × TradeEntry)
  tradeHistory : List (Nat × TradeEntry)
  nextTradeId : Nat
  deriving DecidableEq

def TradeStateManager.empty : TradeStateManager := ⟨[], [], 0⟩

/-- Model of `createTradeEntry`: mints a fresh id, builds a `pending` trade
(`tp2` falls back to `targets[0]` under JS falsiness) and stores it in
`activeTrades`. -/
def createTradeEntry (S : TradeStateManager)
    (userId signalId safeAddress networkKey tokenSymbol : String)
    (sd : SignalData) : TradeEntry × TradeStateManager :=
  let tradeId := S.nextTradeId
  let trade : TradeEntry :=
    { tradeId, userId, signalId, safeAddress, networkKey, tokenSymbol
      entryPrice := sd.currentPrice
      entryAmount := "0"
      tp1 := sd.target1
      tp2 := jsOrQ sd.target2 sd.target1
      stopLoss := sd.stopLoss
      maxExitTime := sd.maxExitTime
      status := .pending
      entryTxHash := none
      exitTxHashes := []
      exitEvents := [] }
  (trade,
    { S with activeTrades := mapSet S.activeTrades tradeId trade
             nextTradeId := S.nextTradeId + 1 })

/-- Model of the private `moveToHistory`. -/
def moveToHistory (S : TradeStateManager) (tradeId : Nat) : TradeStateManager :=
  match mapGet S.activeTrades tradeId with
  | none => S
  | some trade =>
    { S with tradeHistory := mapSet S.tradeHistory tradeId trade
             activeTrades := mapDelete S.activeTrades tradeId }

/-- The statuses on which `updateTradeStatus` calls `moveToHistory`. -/
def isHistoryStatus : TradeStatus → Bool
  | .fully_exited => true
  | .stopped_out => true
  | .expired => true
  | _ => false

/-- The field mutation performed by `updateTradeStatus` on the found trade:
the requested status is applied unconditionally, and the entry hash is
recorded when entering with a truthy hash. -/
def applyStatus (trade : TradeEntry) (status : TradeStatus)
    (txHash : Option String) : TradeEntry :=
  { trade with
    status := status
    entryTxHash :=
      if status = .entered ∧ txHash.isSome then txHash else trade.entryTxHash }

/-- Model of `updateTradeStatus`: looks up the trade in `activeTrades` only,
sets the requested status unconditionally (no transition validation in the
source), and moves the trade to history on
`fully_exited`/`stopped_out`/`expired`. -/
def updateTradeStatus (S : TradeStateManager) (tradeId : Nat)
    (status : TradeStatus) (txHash : Option String) : Bool × TradeStateManager :=
  match mapGet S.activeTrades tradeId with
  | none => (false, S)
  | some trade =>
    let S1 := { S with
      activeTrades := mapSet S.activeTrades tradeId (applyStatus trade status txHash) }
    (true, if isHistoryStatus status then moveToHistory S1 tradeId else S1)

/-- Model of `setTradeEntryAmount`. -/
def setTradeEntryAmount (S : TradeStateManager) (tradeId : Nat)
    (amount : String) : Bool × TradeStateManager :=
  match mapGet S.activeTrades tradeId with
  | none => (false, S)
  | some trade =>
    (true, { S with activeTrades := mapSet S.activeTrades tradeId { trade with entryAmount := amount } })

/-- The reduce in `addExitEvent`: Σ `exitPercentage` over a trade's exit events. -/
def totalExitPercentage (trade : TradeEntry) : ℚ :=
  (trade.exitEvents.map (fun e => e.exitPercentage)).sum

/-- The per-trade mutation performed by `addExitEvent`: push the event (and
its tx hash when truthy), then reclassify the status from the new total. -/
def recordExitEvent (trade : TradeEntry) (exitEvent : TradeExitEvent) : TradeEntry :=
  let trade1 : TradeEntry :=
    { trade with
      exitEvents := trade.exitEvents ++ [exitEvent]
      exitTxHashes := trade.exitTxHashes ++ exitEvent.txHash.toList }
  if 100 ≤ totalExitPercentage trade1 then { trade1 with status := .fully_exited }
  else if 0 < totalExitPercentage trade1 then { trade1 with status := .partially_exited }
  else trade1

/-- Model of `addExitEvent`: the trade is found in `activeTrades` or, failing
that, in `tradeHistory` (JS `a.get(id) || b.get(id)`); it is mutated in
place in whichever map holds it, and moved to history when the total exit
percentage reaches 100. -/
def addExitEvent (S : TradeStateManager) (tradeId : Nat)
    (exitEvent : TradeExitEvent) : Bool × TradeStateManager :=
  match mapGet S.activeTrades tradeId, mapGet S.tradeHistory tradeId with
  | none, none => (false, S)
  | some trade, _ =>
    let trade2 := recordExitEvent trade exitEvent
    let S1 := { S with activeTrades := mapSet S.activeTrades tradeId trade2 }
    (true, if 100 ≤ totalExitPercentage trade2 then moveToHistory S1 tradeId else S1)
  | none, some trade =>
    let trade2 := recordExitEvent trade exitEvent
    let S1 := { S with tradeHistory := mapSet S.tradeHistory tradeId trade2 }
    (true, if 100 ≤ totalExitPercentage trade2 then moveToHistory S1 tradeId else S1)

/-- Model of `getTrade`: active map first, then history. -/
def getTrade (S : TradeStateManager) (tradeId : Nat) : Option TradeEntry :=
  match mapGet S.activeTrades tradeId with
  | some trade => some trade
  | none => mapGet S.tradeHistory tradeId

/-- Model of `getActiveTrades()` without the optional user filter. -/
def getActiveTrades (S : TradeStateManager) : List TradeEntry :=
  S.activeTrades.map Prod.snd

/-- States of the manager reachable by any interleaving of the public
mutators, where every percentage handed to `addExitEvent` satisfies `P`. -/
inductive ReachableTSM (P : ℚ → Prop) : TradeStateManager → Prop
  | empty : ReachableTSM P TradeStateManager.empty
  | create (S : TradeStateManager) (u sg sa nk tk : String) (sd : SignalData) :
      ReachableTSM P S → ReachableTSM P (createTradeEntry S u sg sa nk tk sd).2
  | update (S : TradeStateManager) (id : Nat) (st : TradeStatus) (tx : Option String) :
      ReachableTSM P S → ReachableTSM P (updateTradeStatus S id st tx).2
  | setAmount (S : TradeStateManager) (id : Nat) (a : String) :
      ReachableTSM P S → ReachableTSM P (setTradeEntryAmount S id a).2
  | exitEvent (S : TradeStateManager) (id : Nat) (e : TradeExitEvent) :
      ReachableTSM P S → P e.exitPercentage → ReachableTSM P (addExitEvent S id e).2

/-- No trade id is simultaneously bound in `activeTrades` and `tradeHistory`. -/
def TradePartition (S : TradeStateManager) : Prop :=
  ∀ id : Nat, (mapGet S.activeTrades id).isSome = true → mapGet S.tradeHistory id = none

/-- Every bound trade id was minted by the counter. -/
def TradeIdsBounded (S : TradeStateManager) : Prop :=
  ∀ id : Nat,
    ((mapGet S.activeTrades id).isSome = true ∨ (mapGet S.tradeHistory id).isSome = true) →
    id < S.nextTradeId

/-- The exit-accounting invariant that actually holds on the source: the sum
is non-negative (for non-negative event percentages), and any trade whose
sum has reached 100 is `fully_exited` and no longer active. -/
def ExitSumInv (S : TradeStateManager) : Prop :=
  ∀ id tr, getTrade S id = some tr →
    0 ≤ totalExitPercentage tr ∧
    (100 ≤ totalExitPercentage tr →
      tr.status = TradeStatus.fully_exited ∧ mapGet S.activeTrades id = none)

/-! ## ApiSignalProcessor (src/services/ApiSignalProcessor.ts)

`processApiSignal` mints `signalId = uuidv4()` at the top of every call;
the model replaces the uuid generator by the counter `nextUuid`.  The
external collaborators consulted by `processSignalEnhanced` (token-chain
detection, the Safe directory, Safe validation, position sizing, trade
execution) are abstracted into a single `pipelineOk` flag: the in-process
`validateSignalData` check is modelled exactly, and the remainder of the
pipeline succeeds iff `pipelineOk` is `true`. -/

/-- The fields of the incoming `ApiSignal` object.  `maxExitTime = none`
models a missing or falsy `"Max Exit Time".$date`. -/
structure ApiSignal where
  signalMessage : String
  tokenMentioned : String
  tp1 : ℚ
  tp2 : ℚ
  sl : ℚ
  currentPrice : ℚ
  maxExitTime : Option ℤ
  username : String
  safeAddress : String
  deriving DecidableEq

/-- Model of the private `validateSignalData`, check for check.  A JS falsy
test on a number collapses to `≤ 0` against the accompanying comparison;
a falsy test on a string means the string is empty. -/
def validateSignalData (s : ApiSignal) : Except String Unit :=
  if ¬ (s.signalMessage = "buy" ∨ s.signalMessage = "sell") then
    .error "Invalid signal message"
  else if s.tokenMentioned = "" then .error "Token mentioned is required"
  else if s.username = "" then .error "Username is required"
  else if s.safeAddress = "" then .error "Safe address is required"
  else if s.currentPrice ≤ 0 then .error "Valid current price is required"
  else if s.maxExitTime = none then .error "Valid max exit time is required"
  else if s.signalMessage = "buy" then
    if s.tp1 ≤ s.currentPrice then
      .error "TP1 must be higher than current price for buy signal"
    else if s.currentPrice ≤ s.sl then
      .error "SL must be lower than current price for buy signal"
    else .ok ()
  else
    if s.currentPrice ≤ s.tp1 then
      .error "TP1 must be lower than current price for sell signal"
    else if s.sl ≤ s.currentPrice then
      .error "SL must be higher than current price for sell signal"
    else .ok ()

/-- Boolean form of `validateSignalData` succeeding. -/
def validationPasses (s : ApiSignal) : Bool :=
  match validateSignalData s with
  | .ok _ => true
  | .error _ => false

/-- Classification returned by `processApiSignal`: `alreadyProcessing` is
the `SIGNAL_ALREADY_PROCESSING` throw, `failed` the catch-all error result. -/
inductive SignalOutcome
  | success
  | failed
  | alreadyProcessing
  deriving DecidableEq

/-- The `ProcessedSignal` reply (the nested trading-pair is reduced to the
minted `tradeId`, which the source builds as `signalId + "_" + username`). -/
structure ProcessedSignal where
  signalId : Nat
  tradeId : Option (Nat × String)
  outcome : SignalOutcome
  deriving DecidableEq

/-- Mutable state of the processor: the uuid source, the `processingQueue`
dedup set, and observable side effects (trades created, executions run). -/
structure ApiSignalProcessorState where
  nextUuid : Nat
  processingQueue : List Nat
  createdTrades : List (Nat × String)
  executions : Nat
  deriving DecidableEq

/-- Model of `processApiSignal`.  A fresh `signalId` is minted first; the
`processingQueue.has(signalId)` guard is then consulted; on the non-guarded
path the signal is validated and processed, the `finally` block removing
`signalId` from the queue again (so the net queue is unchanged). -/
def processApiSignal (st : ApiSignalProcessorState) (s : ApiSignal)
    (pipelineOk : Bool) : ProcessedSignal × ApiSignalProcessorState :=
  let signalId := st.nextUuid
  let st1 := { st with nextUuid := st.nextUuid + 1 }
  if signalId ∈ st1.processingQueue then
    (⟨signalId, none, .alreadyProcessing⟩, st1)
  else if validationPasses s ∧ pipelineOk then
    (⟨signalId, some (signalId, s.username), .success⟩,
      { st1 with
        createdTrades := st1.createdTrades ++ [(signalId, s.username)]
        executions := st1.executions + 1 })
  else (⟨signalId, none, .failed⟩, st1)

/-! ## PositionSizingService (src/services/PositionSizingService.ts) -/

/-- The sizing configuration; the instance built by `ApiSignalProcessor`
uses `defaultPercentage = 20` and `maxPositionPercentage = 80`. -/
structure PositionSizingConfig where
  defaultPercentage : ℚ
  minimumUsdAmount : ℚ
  maxPositionPercentage : ℚ
  deriving DecidableEq

def apiSizingConfig : PositionSizingConfig :=
  { defaultPercentage := 20, minimumUsdAmount := 1 / 100, maxPositionPercentage := 80 }

/-- The JS fallback `positionPercentage || defaultConfig.defaultPercentage`:
an absent argument or a literal `0` yields the default. -/
def effectivePercentage (positionPercentage : Option ℚ)
    (cfg : PositionSizingConfig) : ℚ :=
  jsOrQ positionPercentage cfg.defaultPercentage

/-- The percentage validation in `calculatePositionSize`:
`percentage <= 0 || percentage > maxPositionPercentage` yields the
`Invalid percentage` failure result. -/
def percentageRejected (cfg : PositionSizingConfig)
    (positionPercentage : Option ℚ) : Prop :=
  effectivePercentage positionPercentage cfg ≤ 0 ∨
    cfg.maxPositionPercentage < effectivePercentage positionPercentage cfg

instance (cfg : PositionSizingConfig) (pp : Option ℚ) :
    Decidable (percentageRejected cfg pp) := by
  unfold percentageRejected
  infer_instance

/-- Model of `calculateGasReserve`: `parseEther("0.001") = 10^15` raw units
when the base token is the chain's native asset, zero for ERC-20. -/
def calculateGasReserve (isNativeToken : Bool) : ℤ :=
  if isNativeToken then 1000000000000000 else 0

/-- Model of `calculateAvailableBalance`: the reserve is subtracted (and the
result clamped at zero) only for 18-decimal balances. -/
def calculateAvailableBalance (totalBalance gasReserve : ℤ) (decimals : Nat) : ℤ :=
  if decimals ≠ 18 then totalBalance
  else if 0 < totalBalance - gasReserve then totalBalance - gasReserve else 0

/-- Model of `calculatePercentageAmount`: basis points with BigInt
arithmetic; `Int.tdiv` is JS BigInt division (truncation toward zero). -/
def calculatePercentageAmount (balance : ℤ) (percentage : ℚ) : ℤ :=
  Int.tdiv (balance * ⌊percentage * 100⌋) 10000

/-- Steps 2-4 of `calculatePositionSize` composed: gas reserve, available
balance, percentage amount.  `getTokenBalance` reports `decimals = 18` for
every native-token balance. -/
def positionSizeWei (balance : ℤ) (decimals : Nat) (isNativeToken : Bool)
    (percentage : ℚ) : ℤ :=
  calculatePercentageAmount
    (calculateAvailableBalance balance (calculateGasReserve isNativeToken) decimals)
    percentage

/-! ## TradeExecutionService allowance phase (src/services/TradeExecutionService.ts)

`executeSwap` steps 2 and 3.5 call `ensurePermit2Allowance` and
`ensureAllowanceHolderAllowance` (identical logic, different spender) for
ERC-20 sell tokens only.  The on-chain reads and the approval receipt are
external; each spender is therefore given an `AllowanceEnv` oracle holding
the first allowance read, the approval outcome, and the post-settle
re-read.  The executed approval always writes `2^256 - 1`. -/

def MAX_UINT256 : ℕ := 2 ^ 256 - 1

/-- Per-chain Permit2 address table of `ensurePermit2Allowance`. -/
def permit2Address : Nat → Option String
  | 1 => some "0x000000000022D473030F116dDEE9F6B43aC78BA3"
  | 42161 => some "0x000000000022D473030F116dDEE9F6B43aC78BA3"
  | 137 => some "0x000000000022D473030F116dDEE9F6B43aC78BA3"
  | 8453 => some "0x000000000022D473030F116dDEE9F6B43aC78BA3"
  | 10 => some "0x000000000022D473030F116dDEE9F6B43aC78BA3"
  | 11155111 => some "0x000000000022D473030F116dDEE9F6B43aC78BA3"
  | 421614 => some "0x000000000022D473030F116dDEE9F6B43aC78BA3"
  | 84532 => some "0x000000000022D473030F116dDEE9F6B43aC78BA3"
  | _ => none

/-- Outcome of the submitted approval transaction, as the code discriminates
it: no `transactionResponse`, an unsuccessful receipt, or a confirmed one. -/
inductive ApprovalOutcome
  | noResponse
  | failedReceipt
  | confirmed
  deriving DecidableEq

/-- Oracle for the chain state seen by one allowance check: the current
allowance read, what happens to the approval if one is submitted, and the
allowance re-read after the 2-second settle delay. -/
structure AllowanceEnv where
  currentAllowance : ℕ
  outcome : ApprovalOutcome
  allowanceAfterApproval : ℕ
  deriving DecidableEq

/-- Record of one completed allowance check: the amount written by a
submitted approval (if any) and the last allowance read observed. -/
structure AllowanceCheckResult where
  approvalAmount : Option ℕ
  observedAllowance : ℕ
  deriving DecidableEq

/-- The shared body of `ensurePermit2Allowance` and
`ensureAllowanceHolderAllowance` for a single spender: read, compare,
approve to max, confirm, re-read, and fail when still insufficient. -/
def ensureSpenderAllowance (requiredAmount : ℕ) (env : AllowanceEnv) :
    Except String AllowanceCheckResult :=
  if requiredAmount ≤ env.currentAllowance then
    .ok ⟨none, env.currentAllowance⟩
  else
    match env.outcome with
    | .noResponse => .error "approval transaction returned no response"
    | .failedReceipt => .error "approval transaction failed"
    | .confirmed =>
      if requiredAmount ≤ env.allowanceAfterApproval then
        .ok ⟨some MAX_UINT256, env.allowanceAfterApproval⟩
      else .error "allowance not set correctly"

/-- Model of `ensurePermit2Allowance`: on a chain without a Permit2 entry the
code logs a warning and returns without any check (`.ok none`). -/
def ensurePermit2Allowance (chainId : Nat) (amount : ℕ) (env : AllowanceEnv) :
    Except String (Option AllowanceCheckResult) :=
  match permit2Address chainId with
  | none => .ok none
  | some _ =>
    match ensureSpenderAllowance amount env with
    | .error e => .error e
    | .ok r => .ok (some r)

/-- The two allowance checks `executeSwap` runs before broadcasting. -/
structure SwapAllowanceChecks where
  permit2 : Option AllowanceCheckResult
  allowanceHolder : Option AllowanceCheckResult
  deriving DecidableEq

/-- Model of the allowance phase of `executeSwap` (steps 2 and 3.5): both
checks are skipped for a native sell token; for ERC-20 the Permit2 check
runs first, then the AllowanceHolder (quote spender) check. -/
def executeSwapAllowancePhase (sellTokenIsNative : Bool) (chainId : Nat)
    (sellAmountWei : ℕ) (permit2Env holderEnv : AllowanceEnv) :
    Except String SwapAllowanceChecks :=
  if sellTokenIsNative then .ok ⟨none, none⟩
  else
    match ensurePermit2Allowance chainId sellAmountWei permit2Env with
    | .error e => .error e
    | .ok p =>
      match ensureSpenderAllowance sellAmountWei holderEnv with
      | .error e => .error e
      | .ok h => .ok ⟨p, some h⟩

/-! ## PriceMonitoringService (the monitoring half of the source)

`checkTradeConditions` iterates the `tradeMonitoringConfigs` map; the
per-trade body is modelled by `checkTradeExitCondition` and one map update
step by `checkTradeConditionsStep`.  The `MAX_EXIT_TIME` kind is what the
specification calls `DEADLINE`. -/

/-- The `TradeMonitoringConfig` record handed to `addTradeMonitoring`. -/
structure TradeMonitoringConfig where
  tradeId : Nat
  tokenId : String
  entryPrice : ℚ
  tp1 : ℚ
  tp2 : ℚ
  stopLoss : ℚ
  maxExitTime : ℤ
  trailingStopEnabled : Bool
  trailingStopRetracement : ℚ
  deriving DecidableEq

/-- The trailing-high update done inside the `price >= tp1` branch: when
trailing is enabled, `trailingHighs` is raised to the current price if the
stored high (defaulting to the entry price under JS falsiness) is below it;
the returned option is the map content after the update (`none` = still
absent). -/
def updatedTrailingHigh (config : TradeMonitoringConfig)
    (storedHigh : Option ℚ) (currentPrice : ℚ) : Option ℚ :=
  if config.trailingStopEnabled then
    if jsOrQ storedHigh config.entryPrice < currentPrice then some currentPrice
    else storedHigh
  else storedHigh

/-- The trailing-stop test of the source, evaluated against the updated
high: enabled, `price >= tp2`, and price at or below
`trailingHigh * (1 - retracement / 100)` (the high defaulting to the
current price under JS falsiness). -/
def trailingStopTriggered (config : TradeMonitoringConfig)
    (highAfterUpdate : Option ℚ) (currentPrice : ℚ) : Prop :=
  config.trailingStopEnabled = true ∧ config.tp2 ≤ currentPrice ∧
    currentPrice ≤ jsOrQ highAfterUpdate currentPrice *
      (1 - config.trailingStopRetracement / 100)

instance (config : TradeMonitoringConfig) (h : Option ℚ) (p : ℚ) :
    Decidable (trailingStopTriggered config h p) := by
  unfold trailingStopTriggered
  infer_instance

/-- The per-trade body of `checkTradeConditions` at one tick: the
else-if chain `MAX_EXIT_TIME`, `STOP_LOSS`, then inside `price >= tp1` the
trailing-stop test followed by `TP2`/`TP1`.  Returns the emitted condition
(at most one, `none` when nothing fires) and the trailing-high map content
after the tick's update. -/
def checkTradeExitCondition (config : TradeMonitoringConfig)
    (storedHigh : Option ℚ) (now : ℤ) (currentPrice : ℚ) :
    Option ExitType × Option ℚ :=
  if config.maxExitTime ≤ now then (some .MAX_EXIT_TIME, storedHigh)
  else if currentPrice ≤ config.stopLoss then (some .STOP_LOSS, storedHigh)
  else if config.tp1 ≤ currentPrice then
    if trailingStopTriggered config (updatedTrailingHigh config storedHigh currentPrice)
        currentPrice then
      (some .TRAILING_STOP, updatedTrailingHigh config storedHigh currentPrice)
    else if config.tp2 ≤ currentPrice then
      (some .TP2, updatedTrailingHigh config storedHigh currentPrice)
    else (some .TP1, updatedTrailingHigh config storedHigh currentPrice)
  else (none, storedHigh)

/-- The two per-trade maps of `PriceMonitoringService`. -/
structure PriceMonitoringState where
  tradeMonitoringConfigs : List (Nat × TradeMonitoringConfig)
  trailingHighs : List (Nat × ℚ)
  deriving DecidableEq

/-- Model of `removeTradeMonitoring`. -/
def removeTradeMonitoring (ms : PriceMonitoringState) (tradeId : Nat) :
    PriceMonitoringState :=
  { tradeMonitoringConfigs := mapDelete ms.tradeMonitoringConfigs tradeId
    trailingHighs := mapDelete ms.trailingHighs tradeId }

/-- One monitored trade's slice of a `checkTradeConditions` tick:
`priceResult = none` is a failed price fetch (the loop `continue`s); on an
emission the trade is removed from monitoring, otherwise only the
trailing-high update is kept. -/
def checkTradeConditionsStep (ms : PriceMonitoringState) (tradeId : Nat)
    (now : ℤ) (priceResult : Option ℚ) :
    PriceMonitoringState × Option ExitType :=
  match mapGet ms.tradeMonitoringConfigs tradeId, priceResult with
  | none, _ => (ms, none)
  | some _, none => (ms, none)
  | some config, some currentPrice =>
    match checkTradeExitCondition config (mapGet ms.trailingHighs tradeId)
      now currentPrice with
    | (some cond, some h) =>
      (removeTradeMonitoring
        { ms with trailingHighs := mapSet ms.trailingHighs tradeId h } tradeId,
       some cond)
    | (some cond, none) => (removeTradeMonitoring ms tradeId, some cond)
    | (none, some h) =>
      ({ ms with trailingHighs := mapSet ms.trailingHighs tradeId h }, none)
    | (none, none) => (ms, none)

theorem mapGet_mapSet_self {α : Type} (m : List (Nat × α)) (k : Nat) (v : α) :
    mapGet (mapSet m k v) k = some v := by
  induction m with
  | nil => simp [mapGet, mapSet]
  | cons hd tl ih =>
    obtain ⟨k1, v1⟩ := hd
    by_cases h : k1 = k <;> simp [mapGet, mapSet, h, ih]

theorem mapGet_mapSet_ne {α : Type} (m : List (Nat × α)) (k k2 : Nat) (v : α)
    (h : k2 ≠ k) : mapGet (mapSet m k v) k2 = mapGet m k2 := by
  induction m with
  | nil => simp [mapGet, mapSet, Ne.symm h]
  | cons hd tl ih =>
    obtain ⟨k1, v1⟩ := hd
    by_cases h1 : k1 = k
    · subst h1
      simp [mapGet, mapSet, Ne.symm h]
    · simp [mapGet, mapSet, h1, ih]

theorem mapGet_mapDelete_self {α : Type} (m : List (Nat × α)) (k : Nat) :
    mapGet (mapDelete m k) k = none := by
  induction m with
  | nil => simp [mapGet, mapDelete]
  | cons hd tl ih =>
    obtain ⟨k1, v1⟩ := hd
    by_cases h : k1 = k <;> simp [mapGet, mapDelete, h, ih]

theorem mapGet_mapDelete_ne {α : Type} (m : List (Nat × α)) (k k2 : Nat)
    (h : k2 ≠ k) : mapGet (mapDelete m k) k2 = mapGet m k2 := by
  induction m with
  | nil => simp [mapGet, mapDelete]
  | cons hd tl ih =>
    obtain ⟨k1, v1⟩ := hd
    by_cases h1 : k1 = k
    · subst h1
      simp [mapGet, mapDelete, Ne.symm h, ih]
    · simp [mapGet, mapDelete, h1, ih]

theorem mem_map_snd_mapSet {α : Type} (m : List (Nat × α)) (k : Nat) (v : α) :
    v ∈ (mapSet m k v).map Prod.snd := by
  induction m with
  | nil => simp [mapSet]
  | cons hd tl ih =>
    obtain ⟨k1, v1⟩ := hd
    by_cases h : k1 = k
    · simp [mapSet, h]
    · simp only [mapSet, if_neg h, List.map_cons, List.mem_cons]
      exact Or.inr ih

theorem createTradeEntry_active (S : TradeStateManager)
    (u sg sa nk tk : String) (sd : SignalData) :
    (createTradeEntry S u sg sa nk tk sd).2.activeTrades
      = mapSet S.activeTrades S.nextTradeId (createTradeEntry S u sg sa nk tk sd).1 := rfl

theorem createTradeEntry_history (S : TradeStateManager)
    (u sg sa nk tk : String) (sd : SignalData) :
    (createTradeEntry S u sg sa nk tk sd).2.tradeHistory = S.tradeHistory := rfl

theorem createTradeEntry_next (S : TradeStateManager)
    (u sg sa nk tk : String) (sd : SignalData) :
    (createTradeEntry S u sg sa nk tk sd).2.nextTradeId = S.nextTradeId + 1 := rfl

theorem reachableTSM_partition {P : ℚ → Prop} {S : TradeStateManager}
    (h : ReachableTSM P S) : TradePartition S ∧ TradeIdsBounded S := by
  induction h with
  | empty =>
    constructor
    · intro id h1
      simp [TradeStateManager.empty, mapGet] at h1
    · intro id h1
      simp [TradeStateManager.empty, mapGet] at h1
  | create S u sg sa nk tk sd _ ih =>
    obtain ⟨ihP, ihB⟩ := ih
    constructor
    · intro id h1
      simp only [createTradeEntry_active, createTradeEntry_history] at h1 ⊢
      by_cases hid : id = S.nextTradeId
      · cases hh : mapGet S.tradeHistory id with
        | none => rfl
        | some tr =>
          have hb := ihB id (Or.inr (by simp [hh]))
          omega
      · rw [mapGet_mapSet_ne _ _ _ _ hid] at h1
        exact ihP id h1
    · intro id h1
      simp only [createTradeEntry_active, createTradeEntry_history,
        createTradeEntry_next] at h1 ⊢
      by_cases hid : id = S.nextTradeId
      · omega
      · rw [mapGet_mapSet_ne _ _ _ _ hid] at h1
        have hb := ihB id h1
        omega
  | update S id0 st tx _ ih =>
    obtain ⟨ihP, ihB⟩ := ih
    cases hc : mapGet S.activeTrades id0 with
    | none =>
      simp only [updateTradeStatus, hc]
      exact ⟨ihP, ihB⟩
    | some trade =>
      by_cases hst : isHistoryStatus st
      · simp only [updateTradeStatus, hc, hst, if_true]
        rw [moveToHistory]
        simp only [mapGet_mapSet_self]
        constructor
        · intro id h1
          by_cases hid : id = id0
          · subst hid
            simp [mapGet_mapDelete_self] at h1
          · simp only [mapGet_mapDelete_ne _ _ _ hid, mapGet_mapSet_ne _ _ _ _ hid] at h1 ⊢
            exact ihP id h1
        · intro id h1
          by_cases hid : id = id0
          · subst hid
            exact ihB id (Or.inl (by simp [hc]))
          · simp only [mapGet_mapDelete_ne _ _ _ hid, mapGet_mapSet_ne _ _ _ _ hid] at h1
            exact ihB id h1
      · simp only [updateTradeStatus, hc, hst, if_false, Bool.false_eq_true]
        constructor
        · intro id h1
          by_cases hid : id = id0
          · subst hid
            exact ihP id (by simp [hc])
          · simp only [mapGet_mapSet_ne _ _ _ _ hid] at h1
            exact ihP id h1
        · intro id h1
          by_cases hid : id = id0
          · subst hid
            exact ihB id (Or.inl (by simp [hc]))
          · simp only [mapGet_mapSet_ne _ _ _ _ hid] at h1
            exact ihB id h1
  | setAmount S id0 a _ ih =>
    obtain ⟨ihP, ihB⟩ := ih
    cases hc : mapGet S.activeTrades id0 with
    | none =>
      simp only [setTradeEntryAmount, hc]
      exact ⟨ihP, ihB⟩
    | some trade =>
      simp only [setTradeEntryAmount, hc]
      constructor
      · intro id h1
        by_cases hid : id = id0
        · subst hid
          exact ihP id (by simp [hc])
        · simp only [mapGet_mapSet_ne _ _ _ _ hid] at h1
          exact ihP id h1
      · intro id h1
        by_cases hid : id = id0
        · subst hid
          exact ihB id (Or.inl (by simp [hc]))
        · simp only [mapGet_mapSet_ne _ _ _ _ hid] at h1
          exact ihB id h1
  | exitEvent S id0 e _ _ ih =>
    obtain ⟨ihP, ihB⟩ := ih
    cases hc : mapGet S.activeTrades id0 with
    | none =>
      cases hh : mapGet S.tradeHistory id0 with
      | none =>
        simp only [addExitEvent, hc, hh]
        exact ⟨ihP, ihB⟩
      | some trade =>
        simp only [addExitEvent, hc, hh]
        by_cases htot : (100 : ℚ) ≤ totalExitPercentage (recordExitEvent trade e)
        · simp only [htot, if_true]
          rw [moveToHistory]
          simp only [hc]
          constructor
          · intro id h1
            by_cases hid : id = id0
            · subst hid
              rw [hc] at h1
              simp at h1
            · simp only [mapGet_mapSet_ne _ _ _ _ hid] at h1 ⊢
              exact ihP id h1
          · intro id h1
            by_cases hid : id = id0
            · subst hid
              exact ihB id (Or.inr (by simp [hh]))
            · simp only [mapGet_mapSet_ne _ _ _ _ hid] at h1
              exact ihB id h1
        · simp only [htot, if_false]
          constructor
          · intro id h1
            by_cases hid : id = id0
            · subst hid
              rw [hc] at h1
              simp at h1
            · simp only [mapGet_mapSet_ne _ _ _ _ hid] at h1 ⊢
              exact ihP id h1
          · intro id h1
            by_cases hid : id = id0
            · subst hid
              exact ihB id (Or.inr (by simp [hh]))
            · simp only [mapGet_mapSet_ne _ _ _ _ hid] at h1
              exact ihB id h1
    | some trade =>
      simp only [addExitEvent, hc]
      by_cases htot : (100 : ℚ) ≤ totalExitPercentage (recordExitEvent trade e)
      · simp only [htot, if_true]
        rw [moveToHistory]
        simp only [mapGet_mapSet_self]
        constructor
        · intro id h1
          by_cases hid : id = id0
          · subst hid
            simp [mapGet_mapDelete_self] at h1
          · simp only [mapGet_mapDelete_ne _ _ _ hid, mapGet_mapSet_ne _ _ _ _ hid] at h1 ⊢
            exact ihP id h1
        · intro id h1
          by_cases hid : id = id0
          · subst hid
            exact ihB id (Or.inl (by simp [hc]))
          · simp only [mapGet_mapDelete_ne _ _ _ hid, mapGet_mapSet_ne _ _ _ _ hid] at h1
            exact ihB id h1
      · simp only [htot, if_false]
        constructor
        · intro id h1
          by_cases hid : id = id0
          · subst hid
            exact ihP id (by simp [hc])
          · simp only [mapGet_mapSet_ne _ _ _ _ hid] at h1
            exact ihP id h1
        · intro id h1
          by_cases hid : id = id0
          · subst hid
            exact ihB id (Or.inl (by simp [hc]))
          · simp only [mapGet_mapSet_ne _ _ _ _ hid] at h1
            exact ihB id h1

theorem mapDelete_mapSet {α : Type} (m : List (Nat × α)) (k : Nat) (v : α) :
    mapDelete (mapSet m k v) k = mapDelete m k := by
  induction m with
  | nil => simp [mapSet, mapDelete]
  | cons hd tl ih =>
    obtain ⟨k1, v1⟩ := hd
    by_cases h : k1 = k <;> simp [mapSet, mapDelete, h, ih]

theorem getTrade_of_active {S : TradeStateManager} {id : Nat} {tr : TradeEntry}
    (h : mapGet S.activeTrades id = some tr) : getTrade S id = some tr := by
  simp [getTrade, h]

theorem getTrade_of_inactive {S : TradeStateManager} {id : Nat}
    (h : mapGet S.activeTrades id = none) :
    getTrade S id = mapGet S.tradeHistory id := by
  simp [getTrade, h]

theorem updateTradeStatus_not_found {S : TradeStateManager} {id : Nat}
    (st : TradeStatus) (tx : Option String)
    (h : mapGet S.activeTrades id = none) :
    updateTradeStatus S id st tx = (false, S) := by
  simp [updateTradeStatus, h]

theorem updateTradeStatus_found_moved {S : TradeStateManager} {id : Nat}
    {tr : TradeEntry} (st : TradeStatus) (tx : Option String)
    (h : mapGet S.activeTrades id = some tr) (hst : isHistoryStatus st = true) :
    updateTradeStatus S id st tx =
      (true, { S with
        tradeHistory := mapSet S.tradeHistory id (applyStatus tr st tx)
        activeTrades := mapDelete S.activeTrades id }) := by
  simp only [updateTradeStatus, h, hst, if_true, moveToHistory, mapGet_mapSet_self,
    mapDelete_mapSet]

theorem updateTradeStatus_found_kept {S : TradeStateManager} {id : Nat}
    {tr : TradeEntry} (st : TradeStatus) (tx : Option String)
    (h : mapGet S.activeTrades id = some tr) (hst : isHistoryStatus st = false) :
    updateTradeStatus S id st tx =
      (true, { S with
        activeTrades := mapSet S.activeTrades id (applyStatus tr st tx) }) := by
  simp [updateTradeStatus, h, hst]

theorem setTradeEntryAmount_not_found {S : TradeStateManager} {id : Nat}
    (a : String) (h : mapGet S.activeTrades id = none) :
    setTradeEntryAmount S id a = (false, S) := by
  simp [setTradeEntryAmount, h]

theorem setTradeEntryAmount_found {S : TradeStateManager} {id : Nat}
    {tr : TradeEntry} (a : String) (h : mapGet S.activeTrades id = some tr) :
    setTradeEntryAmount S id a =
      (true, { S with
        activeTrades := mapSet S.activeTrades id { tr with entryAmount := a } }) := by
  simp [setTradeEntryAmount, h]

theorem addExitEvent_not_found {S : TradeStateManager} {id : Nat}
    (e : TradeExitEvent) (ha : mapGet S.activeTrades id = none)
    (hh : mapGet S.tradeHistory id = none) :
    addExitEvent S id e = (false, S) := by
  simp [addExitEvent, ha, hh]

theorem addExitEvent_active_full {S : TradeStateManager} {id : Nat}
    {tr : TradeEntry} (e : TradeExitEvent)
    (ha : mapGet S.activeTrades id = some tr)
    (htot : 100 ≤ totalExitPercentage (recordExitEvent tr e)) :
    addExitEvent S id e =
      (true, { S with
        tradeHistory := mapSet S.tradeHistory id (recordExitEvent tr e)
        activeTrades := mapDelete S.activeTrades id }) := by
  simp only [addExitEvent, ha, htot, if_true, moveToHistory, mapGet_mapSet_self,
    mapDelete_mapSet]

theorem addExitEvent_active_below100 {S : TradeStateManager} {id : Nat}
    {tr : TradeEntry} (e : TradeExitEvent)
    (ha : mapGet S.activeTrades id = some tr)
    (htot : ¬ 100 ≤ totalExitPercentage (recordExitEvent tr e)) :
    addExitEvent S id e =
      (true, { S with
        activeTrades := mapSet S.activeTrades id (recordExitEvent tr e) }) := by
  simp [addExitEvent, ha, htot]

theorem addExitEvent_in_history {S : TradeStateManager} {id : Nat}
    {tr : TradeEntry} (e : TradeExitEvent)
    (ha : mapGet S.activeTrades id = none)
    (hh : mapGet S.tradeHistory id = some tr) :
    addExitEvent S id e =
      (true, { S with
        tradeHistory := mapSet S.tradeHistory id (recordExitEvent tr e) }) := by
  by_cases htot : 100 ≤ totalExitPercentage (recordExitEvent tr e)
  · simp [addExitEvent, ha, hh, htot, moveToHistory]
  · simp [addExitEvent, ha, hh, htot]

theorem totalExitPercentage_pushed (tr : TradeEntry) (e : TradeExitEvent) :
    totalExitPercentage
      { tr with exitEvents := tr.exitEvents ++ [e]
                exitTxHashes := tr.exitTxHashes ++ e.txHash.toList }
      = totalExitPercentage tr + e.exitPercentage := by
  simp [totalExitPercentage]

theorem totalExitPercentage_recordExitEvent (tr : TradeEntry) (e : TradeExitEvent) :
    totalExitPercentage (recordExitEvent tr e)
      = totalExitPercentage tr + e.exitPercentage := by
  simp only [recordExitEvent]
  split_ifs <;> simp [totalExitPercentage]

theorem recordExitEvent_status_of_100 (tr : TradeEntry) (e : TradeExitEvent)
    (h : 100 ≤ totalExitPercentage tr + e.exitPercentage) :
    (recordExitEvent tr e).status = TradeStatus.fully_exited := by
  simp only [recordExitEvent, totalExitPercentage_pushed]
  rw [if_pos h]

theorem reachableTSM_exit_inv {S : TradeStateManager}
    (h : ReachableTSM (fun q => 0 ≤ q) S) : ExitSumInv S := by
  induction h with
  | empty =>
    intro id tr h1
    simp [TradeStateManager.empty, getTrade, mapGet] at h1
  | create S u sg sa nk tk sd _ ih =>
    intro id tr h1
    by_cases hid : id = S.nextTradeId
    · rw [getTrade, hid, createTradeEntry_active, mapGet_mapSet_self] at h1
      cases h1
      constructor
      · simp [createTradeEntry, totalExitPercentage]
      · intro habs
        simp [createTradeEntry, totalExitPercentage] at habs
        exact absurd habs (by norm_num)
    · rw [getTrade, createTradeEntry_active, mapGet_mapSet_ne _ _ _ _ hid,
        createTradeEntry_history] at h1
      have h2 := ih id tr (by rw [getTrade]; exact h1)
      refine ⟨h2.1, fun h3 => ⟨(h2.2 h3).1, ?_⟩⟩
      rw [createTradeEntry_active, mapGet_mapSet_ne _ _ _ _ hid]
      exact (h2.2 h3).2
  | update S id0 st tx _ ih =>
    intro id tr h1
    cases hc : mapGet S.activeTrades id0 with
    | none =>
      rw [updateTradeStatus_not_found st tx hc] at h1 ⊢
      exact ih id tr h1
    | some trade =>
      have hIH0 := ih id0 trade (getTrade_of_active hc)
      have htot : ¬ (100 ≤ totalExitPercentage trade) := by
        intro habs
        rw [(hIH0.2 habs).2] at hc
        cases hc
      have htot1 : ¬ (100 ≤ totalExitPercentage (applyStatus trade st tx)) := htot
      by_cases hst : isHistoryStatus st
      · rw [updateTradeStatus_found_moved st tx hc hst] at h1 ⊢
        by_cases hid : id = id0
        · rw [getTrade, hid] at h1
          simp only [mapGet_mapDelete_self, mapGet_mapSet_self] at h1
          cases h1
          refine ⟨hIH0.1, fun h3 => absurd h3 htot1⟩
        · rw [getTrade] at h1
          simp only [mapGet_mapDelete_ne _ _ _ hid, mapGet_mapSet_ne _ _ _ _ hid] at h1
          have h2 := ih id tr (by rw [getTrade]; exact h1)
          refine ⟨h2.1, fun h3 => ⟨(h2.2 h3).1, ?_⟩⟩
          simp only [mapGet_mapDelete_ne _ _ _ hid]
          exact (h2.2 h3).2
      · rw [updateTradeStatus_found_kept st tx hc (by simpa using hst)] at h1 ⊢
        by_cases hid : id = id0
        · rw [getTrade, hid, mapGet_mapSet_self] at h1
          cases h1
          refine ⟨hIH0.1, fun h3 => absurd h3 htot1⟩
        · rw [getTrade] at h1
          simp only [mapGet_mapSet_ne _ _ _ _ hid] at h1
          have h2 := ih id tr (by rw [getTrade]; exact h1)
          refine ⟨h2.1, fun h3 => ⟨(h2.2 h3).1, ?_⟩⟩
          simp only [mapGet_mapSet_ne _ _ _ _ hid]
          exact (h2.2 h3).2
  | setAmount S id0 a _ ih =>
    intro id tr h1
    cases hc : mapGet S.activeTrades id0 with
    | none =>
      rw [setTradeEntryAmount_not_found a hc] at h1 ⊢
      exact ih id tr h1
    | some trade =>
      have hIH0 := ih id0 trade (getTrade_of_active hc)
      have htot : ¬ (100 ≤ totalExitPercentage trade) := by
        intro habs
        rw [(hIH0.2 habs).2] at hc
        cases hc
      rw [setTradeEntryAmount_found a hc] at h1 ⊢
      by_cases hid : id = id0
      · rw [getTrade, hid, mapGet_mapSet_self] at h1
        cases h1
        exact ⟨hIH0.1, fun h3 => absurd h3 htot⟩
      · rw [getTrade] at h1
        simp only [mapGet_mapSet_ne _ _ _ _ hid] at h1
        have h2 := ih id tr (by rw [getTrade]; exact h1)
        refine ⟨h2.1, fun h3 => ⟨(h2.2 h3).1, ?_⟩⟩
        simp only [mapGet_mapSet_ne _ _ _ _ hid]
        exact (h2.2 h3).2
  | exitEvent S id0 e _ hP ih =>
    intro id tr h1
    cases hc : mapGet S.activeTrades id0 with
    | none =>
      cases hh : mapGet S.tradeHistory id0 with
      | none =>
        rw [addExitEvent_not_found e hc hh] at h1 ⊢
        exact ih id tr h1
      | some trade =>
        have hIH0 := ih id0 trade (by rw [getTrade_of_inactive hc]; exact hh)
        have hnn : 0 ≤ totalExitPercentage (recordExitEvent trade e) := by
          rw [totalExitPercentage_recordExitEvent]
          have h4 := hIH0.1
          linarith
        rw [addExitEvent_in_history e hc hh] at h1 ⊢
        by_cases hid : id = id0
        · rw [getTrade, hid, hc, mapGet_mapSet_self] at h1
          cases h1
          refine ⟨hnn, fun h3 => ⟨?_, by rw [hid]; exact hc⟩⟩
          apply recordExitEvent_status_of_100
          rw [totalExitPercentage_recordExitEvent] at h3
          exact h3
        · rw [getTrade] at h1
          simp only [mapGet_mapSet_ne _ _ _ _ hid] at h1
          have h2 := ih id tr (by rw [getTrade]; exact h1)
          exact ⟨h2.1, fun h3 => ⟨(h2.2 h3).1, (h2.2 h3).2⟩⟩
    | some trade =>
      have hIH0 := ih id0 trade (getTrade_of_active hc)
      have hnn : 0 ≤ totalExitPercentage (recordExitEvent trade e) := by
        rw [totalExitPercentage_recordExitEvent]
        have h4 := hIH0.1
        linarith
      by_cases htot : 100 ≤ totalExitPercentage (recordExitEvent trade e)
      · rw [addExitEvent_active_full e hc htot] at h1 ⊢
        by_cases hid : id = id0
        · rw [getTrade, hid] at h1
          simp only [mapGet_mapDelete_self, mapGet_mapSet_self] at h1
          cases h1
          refine ⟨hnn, fun _ => ⟨?_, by rw [hid]; exact mapGet_mapDelete_self _ _⟩⟩
          apply recordExitEvent_status_of_100
          rw [totalExitPercentage_recordExitEvent] at htot
          exact htot
        · rw [getTrade] at h1
          simp only [mapGet_mapDelete_ne _ _ _ hid, mapGet_mapSet_ne _ _ _ _ hid] at h1
          have h2 := ih id tr (by rw [getTrade]; exact h1)
          refine ⟨h2.1, fun h3 => ⟨(h2.2 h3).1, ?_⟩⟩
          simp only [mapGet_mapDelete_ne _ _ _ hid]
          exact (h2.2 h3).2
      · rw [addExitEvent_active_below100 e hc htot] at h1 ⊢
        by_cases hid : id = id0
        · rw [getTrade, hid, mapGet_mapSet_self] at h1
          cases h1
          exact ⟨hnn, fun h3 => absurd h3 htot⟩
        · rw [getTrade] at h1
          simp only [mapGet_mapSet_ne _ _ _ _ hid] at h1
          have h2 := ih id tr (by rw [getTrade]; exact h1)
          refine ⟨h2.1, fun h3 => ⟨(h2.2 h3).1, ?_⟩⟩
          simp only [mapGet_mapSet_ne _ _ _ _ hid]
          exact (h2.2 h3).2

/-! ## Claim theorems -/

/-- C4 (amended): `validateSignalData` accepts a signal iff the message is
`buy`/`sell`, token, username and Safe address are non-empty, the current
price is positive, the `Max Exit Time` field is present, and TP1/SL are on
the correct side of the current price for the signal direction.  It does
not compare TP1 with TP2 and never compares the deadline with the clock. -/
theorem c4_validateSignalData_characterization (s : ApiSignal) :
    validateSignalData s = .ok () ↔
      ((s.signalMessage = "buy" ∨ s.signalMessage = "sell") ∧
       ¬ s.tokenMentioned = "" ∧ ¬ s.username = "" ∧ ¬ s.safeAddress = "" ∧
       0 < s.currentPrice ∧ ¬ s.maxExitTime = none ∧
       (if s.signalMessage = "buy"
        then s.currentPrice < s.tp1 ∧ s.sl < s.currentPrice
        else s.tp1 < s.currentPrice ∧ s.currentPrice < s.sl)) := by
  unfold validateSignalData
  split_ifs with h1 h2 h3 h4 h5 h6 h7 h8 h9 h10 h11 <;>
    simp_all [not_le]

/-- C4 counterexample: the claim says admission rejects every violation of
`stopLoss < entryPrice < tp1 ≤ tp2` and every deadline not strictly in the
future; this buy signal has `tp2 < tp1` and deadline at epoch 0, yet
`validateSignalData` accepts it. -/
theorem c4_counterexample :
    validateSignalData ⟨"buy", "FOO", 110, 105, 90, 100, some 0, "alice", "0xSAFE"⟩
        = .ok () ∧
    (⟨"buy", "FOO", 110, 105, 90, 100, some 0, "alice", "0xSAFE"⟩ : ApiSignal).tp2
      < (⟨"buy", "FOO", 110, 105, 90, 100, some 0, "alice", "0xSAFE"⟩ : ApiSignal).tp1 ∧
    (⟨"buy", "FOO", 110, 105, 90, 100, some 0, "alice", "0xSAFE"⟩ : ApiSignal).maxExitTime
      = some 0 := by
  refine ⟨rfl, by decide, rfl⟩

/-- C5 (amended): for an integer percentage in `[1, 80]` and a non-negative
balance, the composed sizer computes
`⌊max(0, balance − gasReserve) · pct / 100⌋`, which is bounded by
`max(0, balance − gasReserve)` — but not by `balance − gasReserve` itself
when `balance < gasReserve` — and the reserve is non-zero exactly for the
chain's native asset (native balances always carry `decimals = 18`). -/
theorem c5_positionSizeWei_formula_and_bounds
    (balance : ℤ) (decimals : Nat) (isNativeToken : Bool) (pct : Nat)
    (hbal : 0 ≤ balance) (hnat : isNativeToken = true → decimals = 18)
    (hlo : 1 ≤ pct) (hhi : pct ≤ 80) :
    positionSizeWei balance decimals isNativeToken pct
        = max (balance - calculateGasReserve isNativeToken) 0 * pct / 100 ∧
    positionSizeWei balance decimals isNativeToken pct
        ≤ max (balance - calculateGasReserve isNativeToken) 0 ∧
    (calculateGasReserve isNativeToken ≠ 0 ↔ isNativeToken = true) := by
  have hfloor : ⌊(pct : ℚ) * 100⌋ = (pct : ℤ) * 100 := by
    have hcast : ((pct : ℚ)) * 100 = ((pct * 100 : ℕ) : ℚ) := by push_cast; ring
    rw [hcast, Int.floor_natCast]
    push_cast
    ring
  have havail : calculateAvailableBalance balance (calculateGasReserve isNativeToken)
      decimals = max (balance - calculateGasReserve isNativeToken) 0 := by
    by_cases hd : decimals = 18
    · unfold calculateAvailableBalance
      rw [if_neg (by omega), max_def]
      split_ifs <;> omega
    · have hn : isNativeToken = false := by
        cases hng : isNativeToken
        · rfl
        · exact absurd (hnat hng) hd
      rw [hn]
      have hgr : calculateGasReserve false = 0 := rfl
      rw [hgr]
      unfold calculateAvailableBalance
      rw [if_pos hd, max_def]
      split_ifs <;> omega
  have hA : 0 ≤ max (balance - calculateGasReserve isNativeToken) 0 := le_max_right _ _
  have htdiv : positionSizeWei balance decimals isNativeToken pct
      = max (balance - calculateGasReserve isNativeToken) 0 * ((pct : ℤ) * 100) / 10000 := by
    rw [positionSizeWei, havail, calculatePercentageAmount, hfloor,
      Int.tdiv_eq_ediv (by positivity) (by norm_num)]
  refine ⟨?_, ?_, ?_⟩
  · rw [htdiv]
    have hshape : max (balance - calculateGasReserve isNativeToken) 0 * ((pct : ℤ) * 100)
        = (max (balance - calculateGasReserve isNativeToken) 0 * pct) * 100 := by ring
    rw [hshape]
    generalize max (balance - calculateGasReserve isNativeToken) 0 * (pct : ℤ) = y
    omega
  · rw [htdiv]
    have h1 : max (balance - calculateGasReserve isNativeToken) 0 * ((pct : ℤ) * 100)
        ≤ max (balance - calculateGasReserve isNativeToken) 0 * 10000 := by
      apply mul_le_mul_of_nonneg_left _ hA
      have : (pct : ℤ) ≤ 80 := by exact_mod_cast hhi
      nlinarith
    calc max (balance - calculateGasReserve isNativeToken) 0 * ((pct : ℤ) * 100) / 10000
        ≤ max (balance - calculateGasReserve isNativeToken) 0 * 10000 / 10000 :=
          Int.ediv_le_ediv (by norm_num) h1
      _ = max (balance - calculateGasReserve isNativeToken) 0 := by omega
  · cases isNativeToken <;> simp [calculateGasReserve]

/-- C5 counterexample: with a zero native balance the reserve exceeds the
balance, the sizer clamps to zero and returns 0, and the claimed bound
`sellAmountRaw ≤ balance − gasReserveRaw` fails (`0 ≤ −10^15` is false). -/
theorem c5_counterexample :
    positionSizeWei 0 18 true 20 = 0 ∧
    ¬ (positionSizeWei 0 18 true 20 ≤ 0 - calculateGasReserve true) := by
  have h0 : positionSizeWei 0 18 true 20 = 0 := by
    simp [positionSizeWei, calculateAvailableBalance, calculateGasReserve,
      calculatePercentageAmount]
  refine ⟨h0, ?_⟩
  rw [h0]
  simp [calculateGasReserve]

/-- C5 witness: the amended theorem applied at an ERC-20 balance of 1000
raw units, 6 decimals, 20 percent. -/
theorem c5_witness :
    (0 : ℤ) ≤ 1000 ∧ (false = true → (6 : Nat) = 18) ∧ 1 ≤ 20 ∧ 20 ≤ 80 ∧
    (positionSizeWei 1000 6 false 20
        = max (1000 - calculateGasReserve false) 0 * 20 / 100 ∧
     positionSizeWei 1000 6 false 20 ≤ max (1000 - calculateGasReserve false) 0 ∧
     (calculateGasReserve false ≠ 0 ↔ false = true)) :=
  ⟨by decide, by decide, by decide, by decide,
    c5_positionSizeWei_formula_and_bounds 1000 6 false 20 (by decide) (by decide)
      (by decide) (by decide)⟩

/-- C6 (amended): the `Invalid percentage` failure fires exactly when the
effective percentage — the requested value when non-zero, otherwise the
default 20 — is `≤ 0` or `> 80`.  Hence every non-zero requested value in
`(0, 1)` (such as 0.5) passes validation, and a requested `0` is silently
replaced by the default 20 rather than rejected. -/
theorem c6_percentage_validation_characterization (p : ℚ) (hp : p ≠ 0) :
    (percentageRejected apiSizingConfig (some p) ↔ (p < 0 ∨ 80 < p)) ∧
    ¬ percentageRejected apiSizingConfig (some 0) ∧
    effectivePercentage (some 0) apiSizingConfig = 20 ∧
    ¬ percentageRejected apiSizingConfig none := by
  refine ⟨?_, ?_, ?_, ?_⟩
  · unfold percentageRejected effectivePercentage jsOrQ apiSizingConfig
    simp only [if_neg hp]
    constructor
    · rintro (h | h)
      · exact Or.inl (lt_of_le_of_ne h hp)
      · exact Or.inr h
    · rintro (h | h)
      · exact Or.inl (le_of_lt h)
      · exact Or.inr h
  · unfold percentageRejected effectivePercentage jsOrQ apiSizingConfig
    norm_num
  · rfl
  · unfold percentageRejected effectivePercentage jsOrQ apiSizingConfig
    norm_num

/-- C6 counterexample: the requested percentage 0.5 lies strictly below 1
(outside `[1, 80]`), yet the validation does not reject it; a requested 0
is not rejected either. -/
theorem c6_counterexample :
    ¬ percentageRejected apiSizingConfig (some (1 / 2)) ∧ (1 / 2 : ℚ) < 1 ∧
    ¬ percentageRejected apiSizingConfig (some 0) := by
  unfold percentageRejected effectivePercentage jsOrQ apiSizingConfig
  norm_num

/-- C6 witness: the amended characterization applied at the requested
percentage 1/2. -/
theorem c6_witness :
    (1 / 2 : ℚ) ≠ 0 ∧
    ((percentageRejected apiSizingConfig (some (1 / 2)) ↔
        ((1 / 2 : ℚ) < 0 ∨ 80 < (1 / 2 : ℚ))) ∧
     ¬ percentageRejected apiSizingConfig (some 0) ∧
     effectivePercentage (some 0) apiSizingConfig = 20 ∧
     ¬ percentageRejected apiSizingConfig none) :=
  ⟨by norm_num, c6_percentage_validation_characterization (1 / 2) (by norm_num)⟩

/-- C1: `processApiSignal` mints a fresh uuid `signalId` on every call, so
re-delivering the same signal is never recognised: the
`processingQueue.has(signalId)` guard (checked against the just-minted id)
cannot fire, the signal is fully reprocessed, a second trade with a new
`tradeId` is created and a second execution is run — against both the
idempotency claim and the source's own "Prevent duplicate processing"
comment. -/
theorem c1_processApiSignal_reprocesses_duplicates
    (st : ApiSignalProcessorState) (s : ApiSignal)
    (hq : ∀ q ∈ st.processingQueue, q < st.nextUuid)
    (hv : validationPasses s = true) :
    (processApiSignal st s true).1.outcome = SignalOutcome.success ∧
    (processApiSignal (processApiSignal st s true).2 s true).1.outcome
        = SignalOutcome.success ∧
    (processApiSignal (processApiSignal st s true).2 s true).1.outcome
        ≠ SignalOutcome.alreadyProcessing ∧
    (processApiSignal st s true).1.signalId
        ≠ (processApiSignal (processApiSignal st s true).2 s true).1.signalId ∧
    (processApiSignal st s true).1.tradeId
        ≠ (processApiSignal (processApiSignal st s true).2 s true).1.tradeId ∧
    (processApiSignal (processApiSignal st s true).2 s true).2.createdTrades.length
        = st.createdTrades.length + 2 ∧
    (processApiSignal (processApiSignal st s true).2 s true).2.executions
        = st.executions + 2 := by
  have h1 : st.nextUuid ∉ st.processingQueue := by
    intro hmem
    have h3 := hq _ hmem
    omega
  have h2 : st.nextUuid + 1 ∉ st.processingQueue := by
    intro hmem
    have h3 := hq _ hmem
    omega
  simp only [processApiSignal, if_neg h1, hv, true_and, and_true, if_true,
    List.length_append]
  simp only [if_neg h2, hv, true_and, and_true, if_true, List.length_append]
  refine ⟨by decide, by omega, ?_⟩
  refine ⟨?_, by simp only [List.length_cons, List.length_nil]⟩
  intro hco
  simp only [Option.some.injEq, Prod.mk.injEq] at hco
  omega

/-- C1 witness: the failing run at a concrete state and signal — the same
signal delivered twice yields two successes, two distinct trade ids, two
created trades and two executions. -/
theorem c1_witness :
    (∀ q ∈ ([] : List Nat), q < 0) ∧
    validationPasses ⟨"buy", "FOO", 2, 3, 0, 1, some 100, "alice", "0xSAFE"⟩ = true ∧
    ((processApiSignal ⟨0, [], [], 0⟩
        ⟨"buy", "FOO", 2, 3, 0, 1, some 100, "alice", "0xSAFE"⟩ true).1.outcome
          = SignalOutcome.success ∧
     (processApiSignal (processApiSignal ⟨0, [], [], 0⟩
        ⟨"buy", "FOO", 2, 3, 0, 1, some 100, "alice", "0xSAFE"⟩ true).2
        ⟨"buy", "FOO", 2, 3, 0, 1, some 100, "alice", "0xSAFE"⟩ true).1.outcome
          = SignalOutcome.success ∧
     (processApiSignal (processApiSignal ⟨0, [], [], 0⟩
        ⟨"buy", "FOO", 2, 3, 0, 1, some 100, "alice", "0xSAFE"⟩ true).2
        ⟨"buy", "FOO", 2, 3, 0, 1, some 100, "alice", "0xSAFE"⟩ true).1.outcome
          ≠ SignalOutcome.alreadyProcessing ∧
     (processApiSignal ⟨0, [], [], 0⟩
        ⟨"buy", "FOO", 2, 3, 0, 1, some 100, "alice", "0xSAFE"⟩ true).1.signalId
          ≠ (processApiSignal (processApiSignal ⟨0, [], [], 0⟩
        ⟨"buy", "FOO", 2, 3, 0, 1, some 100, "alice", "0xSAFE"⟩ true).2
        ⟨"buy", "FOO", 2, 3, 0, 1, some 100, "alice", "0xSAFE"⟩ true).1.signalId ∧
     (processApiSignal ⟨0, [], [], 0⟩
        ⟨"buy", "FOO", 2, 3, 0, 1, some 100, "alice", "0xSAFE"⟩ true).1.tradeId
          ≠ (processApiSignal (processApiSignal ⟨0, [], [], 0⟩
        ⟨"buy", "FOO", 2, 3, 0, 1, some 100, "alice", "0xSAFE"⟩ true).2
        ⟨"buy", "FOO", 2, 3, 0, 1, some 100, "alice", "0xSAFE"⟩ true).1.tradeId ∧
     (processApiSignal (processApiSignal ⟨0, [], [], 0⟩
        ⟨"buy", "FOO", 2, 3, 0, 1, some 100, "alice", "0xSAFE"⟩ true).2
        ⟨"buy", "FOO", 2, 3, 0, 1, some 100, "alice", "0xSAFE"⟩ true).2.createdTrades.length
          = ([] : List (Nat × String)).length + 2 ∧
     (processApiSignal (processApiSignal ⟨0, [], [], 0⟩
        ⟨"buy", "FOO", 2, 3, 0, 1, some 100, "alice", "0xSAFE"⟩ true).2
        ⟨"buy", "FOO", 2, 3, 0, 1, some 100, "alice", "0xSAFE"⟩ true).2.executions
          = 0 + 2) :=
  ⟨by simp, by decide,
    c1_processApiSignal_reprocesses_duplicates ⟨0, [], [], 0⟩
      ⟨"buy", "FOO", 2, 3, 0, 1, some 100, "alice", "0xSAFE"⟩ (by simp) (by decide)⟩

theorem ensureSpenderAllowance_ok {amt : ℕ} {env : AllowanceEnv}
    {r : AllowanceCheckResult} (h : ensureSpenderAllowance amt env = .ok r) :
    amt ≤ r.observedAllowance ∧ ∀ a, r.approvalAmount = some a → a = MAX_UINT256 := by
  unfold ensureSpenderAllowance at h
  by_cases h1 : amt ≤ env.currentAllowance
  · rw [if_pos h1] at h
    cases h
    exact ⟨h1, by simp⟩
  · rw [if_neg h1] at h
    cases ho : env.outcome <;> rw [ho] at h
    · cases h
    · cases h
    · by_cases h2 : amt ≤ env.allowanceAfterApproval
      · rw [if_pos h2] at h
        cases h
        exact ⟨h2, fun a ha => by cases ha; rfl⟩
      · rw [if_neg h2] at h
        cases h

theorem ensureSpenderAllowance_reread_insufficient {amt : ℕ} {env : AllowanceEnv}
    (h1 : env.currentAllowance < amt) (h2 : env.outcome = .confirmed)
    (h3 : env.allowanceAfterApproval < amt) :
    ensureSpenderAllowance amt env = .error "allowance not set correctly" := by
  unfold ensureSpenderAllowance
  rw [if_neg (by omega), h2]
  rw [if_neg (by omega)]

/-- C7: for an ERC-20 sell token on a chain with a Permit2 entry, when the
allowance phase of `executeSwap` succeeds, both the Permit2 contract and
the quote's spender (AllowanceHolder) were observed holding at least
`sellAmountWei`; any approval that was submitted wrote `2^256 − 1`; if the
post-settle re-read is still insufficient the phase fails with an error;
and for a native sell token both checks are skipped. -/
theorem c7_executeSwap_allowance_sufficiency
    (chainId : Nat) (sellAmountWei : ℕ) (permit2Env holderEnv : AllowanceEnv)
    (hchain : (permit2Address chainId).isSome = true) :
    (∀ checks,
        executeSwapAllowancePhase false chainId sellAmountWei permit2Env holderEnv
            = .ok checks →
        ∃ p h, checks.permit2 = some p ∧ checks.allowanceHolder = some h ∧
          sellAmountWei ≤ p.observedAllowance ∧
          sellAmountWei ≤ h.observedAllowance ∧
          (∀ a, p.approvalAmount = some a → a = 2 ^ 256 - 1) ∧
          (∀ a, h.approvalAmount = some a → a = 2 ^ 256 - 1)) ∧
    (permit2Env.currentAllowance < sellAmountWei →
      permit2Env.outcome = ApprovalOutcome.confirmed →
      permit2Env.allowanceAfterApproval < sellAmountWei →
      executeSwapAllowancePhase false chainId sellAmountWei permit2Env holderEnv
        = .error "allowance not set correctly") ∧
    (∀ (c : Nat) (n : ℕ) (e1 e2 : AllowanceEnv),
      executeSwapAllowancePhase true c n e1 e2 = .ok ⟨none, none⟩) := by
  obtain ⟨addr, haddr⟩ := Option.isSome_iff_exists.mp hchain
  refine ⟨?_, ?_, ?_⟩
  · intro checks hok
    unfold executeSwapAllowancePhase at hok
    rw [if_neg (by simp)] at hok
    unfold ensurePermit2Allowance at hok
    rw [haddr] at hok
    cases hp : ensureSpenderAllowance sellAmountWei permit2Env <;> rw [hp] at hok
    · cases hok
    · cases hh : ensureSpenderAllowance sellAmountWei holderEnv <;> rw [hh] at hok
      · cases hok
      · cases hok
        have hp2 := ensureSpenderAllowance_ok hp
        have hh2 := ensureSpenderAllowance_ok hh
        exact ⟨_, _, rfl, rfl, hp2.1, hh2.1, hp2.2, hh2.2⟩
  · intro h1 h2 h3
    unfold executeSwapAllowancePhase
    rw [if_neg (by simp)]
    unfold ensurePermit2Allowance
    rw [haddr, ensureSpenderAllowance_reread_insufficient h1 h2 h3]
  · intro c n e1 e2
    rfl

/-- C7 witness: the theorem applied on Arbitrum (42161) at a required
amount of 1000, a Permit2 allowance read of 0 repaired by a confirmed
max approval, and a holder allowance already sufficient. -/
theorem c7_witness :
    (permit2Address 42161).isSome = true ∧
    ((∀ checks,
        executeSwapAllowancePhase false 42161 1000
            ⟨0, ApprovalOutcome.confirmed, 2 ^ 256 - 1⟩ ⟨5000, ApprovalOutcome.confirmed, 0⟩
            = .ok checks →
        ∃ p h, checks.permit2 = some p ∧ checks.allowanceHolder = some h ∧
          1000 ≤ p.observedAllowance ∧ 1000 ≤ h.observedAllowance ∧
          (∀ a, p.approvalAmount = some a → a = 2 ^ 256 - 1) ∧
          (∀ a, h.approvalAmount = some a → a = 2 ^ 256 - 1)) ∧
     ((⟨0, ApprovalOutcome.confirmed, 2 ^ 256 - 1⟩ : AllowanceEnv).currentAllowance < 1000 →
      (⟨0, ApprovalOutcome.confirmed, 2 ^ 256 - 1⟩ : AllowanceEnv).outcome
          = ApprovalOutcome.confirmed →
      (⟨0, ApprovalOutcome.confirmed, 2 ^ 256 - 1⟩ : AllowanceEnv).allowanceAfterApproval < 1000 →
      executeSwapAllowancePhase false 42161 1000
          ⟨0, ApprovalOutcome.confirmed, 2 ^ 256 - 1⟩ ⟨5000, ApprovalOutcome.confirmed, 0⟩
        = .error "allowance not set correctly") ∧
     (∀ (c : Nat) (n : ℕ) (e1 e2 : AllowanceEnv),
      executeSwapAllowancePhase true c n e1 e2 = .ok ⟨none, none⟩)) :=
  ⟨rfl, c7_executeSwap_allowance_sufficiency 42161 1000
    ⟨0, ApprovalOutcome.confirmed, 2 ^ 256 - 1⟩ ⟨5000, ApprovalOutcome.confirmed, 0⟩ rfl⟩

/-- C8: at every tick at most one exit condition is emitted per trade (the
result is a single `Option`), and when several conditions hold at the
tick's price the emitted kind follows the precedence
`MAX_EXIT_TIME (DEADLINE) > STOP_LOSS > TRAILING_STOP > TP2 > TP1`
(for configurations with `tp1 ≤ tp2`, the Signal invariant). -/
theorem c8_monitor_tie_break (config : TradeMonitoringConfig)
    (storedHigh : Option ℚ) (now : ℤ) (price : ℚ)
    (hT : config.tp1 ≤ config.tp2) :
    (config.maxExitTime ≤ now →
      (checkTradeExitCondition config storedHigh now price).1
        = some ExitType.MAX_EXIT_TIME) ∧
    (¬ config.maxExitTime ≤ now → price ≤ config.stopLoss →
      (checkTradeExitCondition config storedHigh now price).1
        = some ExitType.STOP_LOSS) ∧
    (¬ config.maxExitTime ≤ now → ¬ price ≤ config.stopLoss →
      trailingStopTriggered config (updatedTrailingHigh config storedHigh price) price →
      (checkTradeExitCondition config storedHigh now price).1
        = some ExitType.TRAILING_STOP) ∧
    (¬ config.maxExitTime ≤ now → ¬ price ≤ config.stopLoss →
      ¬ trailingStopTriggered config (updatedTrailingHigh config storedHigh price) price →
      config.tp2 ≤ price →
      (checkTradeExitCondition config storedHigh now price).1
        = some ExitType.TP2) ∧
    (¬ config.maxExitTime ≤ now → ¬ price ≤ config.stopLoss →
      ¬ trailingStopTriggered config (updatedTrailingHigh config storedHigh price) price →
      ¬ config.tp2 ≤ price → config.tp1 ≤ price →
      (checkTradeExitCondition config storedHigh now price).1
        = some ExitType.TP1) := by
  refine ⟨?_, ?_, ?_, ?_, ?_⟩
  · intro h1
    unfold checkTradeExitCondition
    rw [if_pos h1]
  · intro h1 h2
    unfold checkTradeExitCondition
    rw [if_neg h1, if_pos h2]
  · intro h1 h2 h3
    unfold checkTradeExitCondition
    rw [if_neg h1, if_neg h2, if_pos (le_trans hT h3.2.1), if_pos h3]
  · intro h1 h2 h3 h4
    unfold checkTradeExitCondition
    rw [if_neg h1, if_neg h2, if_pos (le_trans hT h4), if_neg h3, if_pos h4]
  · intro h1 h2 h3 h4 h5
    unfold checkTradeExitCondition
    rw [if_neg h1, if_neg h2, if_pos h5, if_neg h3, if_neg h4]

/-- C8 witness: the theorem applied at a configuration (`tp1 = 105`,
`tp2 = 110`) and a tick at which the deadline has passed. -/
theorem c8_witness :
    (⟨1, "FOO", 100, 105, 110, 95, 400, false, 2⟩ : TradeMonitoringConfig).tp1
        ≤ (⟨1, "FOO", 100, 105, 110, 95, 400, false, 2⟩ : TradeMonitoringConfig).tp2 ∧
    (((⟨1, "FOO", 100, 105, 110, 95, 400, false, 2⟩ : TradeMonitoringConfig).maxExitTime ≤ 500 →
      (checkTradeExitCondition ⟨1, "FOO", 100, 105, 110, 95, 400, false, 2⟩ none 500 100).1
        = some ExitType.MAX_EXIT_TIME) ∧
     (¬ (⟨1, "FOO", 100, 105, 110, 95, 400, false, 2⟩ : TradeMonitoringConfig).maxExitTime ≤ 500 →
      (100 : ℚ) ≤ (⟨1, "FOO", 100, 105, 110, 95, 400, false, 2⟩ : TradeMonitoringConfig).stopLoss →
      (checkTradeExitCondition ⟨1, "FOO", 100, 105, 110, 95, 400, false, 2⟩ none 500 100).1
        = some ExitType.STOP_LOSS) ∧
     (¬ (⟨1, "FOO", 100, 105, 110, 95, 400, false, 2⟩ : TradeMonitoringConfig).maxExitTime ≤ 500 →
      ¬ (100 : ℚ) ≤ (⟨1, "FOO", 100, 105, 110, 95, 400, false, 2⟩ : TradeMonitoringConfig).stopLoss →
      trailingStopTriggered ⟨1, "FOO", 100, 105, 110, 95, 400, false, 2⟩
        (updatedTrailingHigh ⟨1, "FOO", 100, 105, 110, 95, 400, false, 2⟩ none 100) 100 →
      (checkTradeExitCondition ⟨1, "FOO", 100, 105, 110, 95, 400, false, 2⟩ none 500 100).1
        = some ExitType.TRAILING_STOP) ∧
     (¬ (⟨1, "FOO", 100, 105, 110, 95, 400, false, 2⟩ : TradeMonitoringConfig).maxExitTime ≤ 500 →
      ¬ (100 : ℚ) ≤ (⟨1, "FOO", 100, 105, 110, 95, 400, false, 2⟩ : TradeMonitoringConfig).stopLoss →
      ¬ trailingStopTriggered ⟨1, "FOO", 100, 105, 110, 95, 400, false, 2⟩
        (updatedTrailingHigh ⟨1, "FOO", 100, 105, 110, 95, 400, false, 2⟩ none 100) 100 →
      (⟨1, "FOO", 100, 105, 110, 95, 400, false, 2⟩ : TradeMonitoringConfig).tp2 ≤ 100 →
      (checkTradeExitCondition ⟨1, "FOO", 100, 105, 110, 95, 400, false, 2⟩ none 500 100).1
        = some ExitType.TP2) ∧
     (¬ (⟨1, "FOO", 100, 105, 110, 95, 400, false, 2⟩ : TradeMonitoringConfig).maxExitTime ≤ 500 →
      ¬ (100 : ℚ) ≤ (⟨1, "FOO", 100, 105, 110, 95, 400, false, 2⟩ : TradeMonitoringConfig).stopLoss →
      ¬ trailingStopTriggered ⟨1, "FOO", 100, 105, 110, 95, 400, false, 2⟩
        (updatedTrailingHigh ⟨1, "FOO", 100, 105, 110, 95, 400, false, 2⟩ none 100) 100 →
      ¬ (⟨1, "FOO", 100, 105, 110, 95, 400, false, 2⟩ : TradeMonitoringConfig).tp2 ≤ 100 →
      (⟨1, "FOO", 100, 105, 110, 95, 400, false, 2⟩ : TradeMonitoringConfig).tp1 ≤ 100 →
      (checkTradeExitCondition ⟨1, "FOO", 100, 105, 110, 95, 400, false, 2⟩ none 500 100).1
        = some ExitType.TP1)) :=
  ⟨by decide,
    c8_monitor_tie_break ⟨1, "FOO", 100, 105, 110, 95, 400, false, 2⟩ none 500 100 (by decide)⟩

/-- C9 (amended): the monitor detaches a trade on every exit emission —
including a non-terminal `TP1` — because `checkTradeConditions` calls
`removeTradeMonitoring` whenever any condition fires; there is no
`tp1_hit` monitor state.  A trade stays attached only on ticks that emit
nothing (no condition met, or a failed price fetch). -/
theorem c9_monitor_detach_discipline
    (ms : PriceMonitoringState) (tradeId : Nat) (now : ℤ)
    (config : TradeMonitoringConfig)
    (hc : mapGet ms.tradeMonitoringConfigs tradeId = some config) :
    (∀ price ms2 cond,
        checkTradeConditionsStep ms tradeId now (some price) = (ms2, some cond) →
        mapGet ms2.tradeMonitoringConfigs tradeId = none ∧
        mapGet ms2.trailingHighs tradeId = none) ∧
    (∀ price ms2,
        checkTradeConditionsStep ms tradeId now (some price) = (ms2, none) →
        mapGet ms2.tradeMonitoringConfigs tradeId = some config) ∧
    checkTradeConditionsStep ms tradeId now none = (ms, none) := by
  refine ⟨?_, ?_, ?_⟩
  · intro price ms2 cond h
    unfold checkTradeConditionsStep at h
    rw [hc] at h
    dsimp only at h
    rcases hres : checkTradeExitCondition config (mapGet ms.trailingHighs tradeId)
        now price with ⟨e, hi⟩
    rw [hres] at h
    cases e with
    | none =>
      cases hi <;> simp only [] at h <;> cases h
    | some cond2 =>
      cases hi with
      | none =>
        cases h
        exact ⟨mapGet_mapDelete_self _ _, mapGet_mapDelete_self _ _⟩
      | some hval =>
        cases h
        exact ⟨mapGet_mapDelete_self _ _, mapGet_mapDelete_self _ _⟩
  · intro price ms2 h
    unfold checkTradeConditionsStep at h
    rw [hc] at h
    dsimp only at h
    rcases hres : checkTradeExitCondition config (mapGet ms.trailingHighs tradeId)
        now price with ⟨e, hi⟩
    rw [hres] at h
    cases e with
    | none =>
      cases hi with
      | none =>
        cases h
        exact hc
      | some hval =>
        cases h
        exact hc
    | some cond2 =>
      cases hi <;> cases h
  · unfold checkTradeConditionsStep
    rw [hc]

/-- C9 counterexample: at a tick with `tp1 ≤ price < tp2` and neither
deadline nor stop-loss hit, `TP1` is emitted and the trade is removed from
monitoring — it is not retained in a `tp1_hit` state as the claim says. -/
theorem c9_counterexample :
    checkTradeConditionsStep
        ⟨[(7, ⟨7, "FOO", 100, 105, 110, 95, 1000, false, 2⟩)], []⟩ 7 500 (some 106)
      = (⟨[], []⟩, some ExitType.TP1) := rfl

/-- C9 witness: the detach-discipline theorem applied at a single-trade
monitoring state. -/
theorem c9_witness :
    mapGet (⟨[(7, ⟨7, "FOO", 100, 105, 110, 95, 1000, false, 2⟩)], []⟩ :
        PriceMonitoringState).tradeMonitoringConfigs 7
      = some ⟨7, "FOO", 100, 105, 110, 95, 1000, false, 2⟩ ∧
    ((∀ price ms2 cond,
        checkTradeConditionsStep
            ⟨[(7, ⟨7, "FOO", 100, 105, 110, 95, 1000, false, 2⟩)], []⟩ 7 500 (some price)
          = (ms2, some cond) →
        mapGet ms2.tradeMonitoringConfigs 7 = none ∧
        mapGet ms2.trailingHighs 7 = none) ∧
     (∀ price ms2,
        checkTradeConditionsStep
            ⟨[(7, ⟨7, "FOO", 100, 105, 110, 95, 1000, false, 2⟩)], []⟩ 7 500 (some price)
          = (ms2, none) →
        mapGet ms2.tradeMonitoringConfigs 7
          = some ⟨7, "FOO", 100, 105, 110, 95, 1000, false, 2⟩) ∧
     checkTradeConditionsStep
          ⟨[(7, ⟨7, "FOO", 100, 105, 110, 95, 1000, false, 2⟩)], []⟩ 7 500 none
        = (⟨[(7, ⟨7, "FOO", 100, 105, 110, 95, 1000, false, 2⟩)], []⟩, none)) :=
  ⟨rfl, c9_monitor_detach_discipline
    ⟨[(7, ⟨7, "FOO", 100, 105, 110, 95, 1000, false, 2⟩)], []⟩ 7 500
    ⟨7, "FOO", 100, 105, 110, 95, 1000, false, 2⟩ rfl⟩

/-- C2 counterexample: two successive 60% exit events drive the sum of
`exitPercentage` over the trade's exits to 120, outside `[0, 100]` —
`addExitEvent` enforces no cap. -/
theorem c2_counterexample :
    ((getTrade (addExitEvent (addExitEvent
        (createTradeEntry TradeStateManager.empty "alice" "sig1" "0xSAFE" "arbitrum" "FOO"
          ⟨100, 105, some 110, 95, 1000⟩).2
        0 ⟨ExitType.TP1, 106, "10", 60, none, 0⟩).2
        0 ⟨ExitType.TP2, 111, "10", 60, none, 0⟩).2 0).map totalExitPercentage)
      = some 120 ∧
    ¬ ((120 : ℚ) ≤ 100) := by
  refine ⟨?_, by norm_num⟩
  set tr0 := (createTradeEntry TradeStateManager.empty "alice" "sig1" "0xSAFE" "arbitrum"
      "FOO" ⟨100, 105, some 110, 95, 1000⟩).1 with htr0def
  set S0 := (createTradeEntry TradeStateManager.empty "alice" "sig1" "0xSAFE" "arbitrum"
      "FOO" ⟨100, 105, some 110, 95, 1000⟩).2 with hS0def
  set e1 : TradeExitEvent := ⟨ExitType.TP1, 106, "10", 60, none, 0⟩ with he1def
  set e2 : TradeExitEvent := ⟨ExitType.TP2, 111, "10", 60, none, 0⟩ with he2def
  have ha0 : mapGet S0.activeTrades 0 = some tr0 := rfl
  have h0 : totalExitPercentage tr0 = 0 := rfl
  have hn1 : ¬ (100 : ℚ) ≤ totalExitPercentage (recordExitEvent tr0 e1) := by
    rw [totalExitPercentage_recordExitEvent, h0]
    norm_num [he1def]
  rw [congrArg Prod.snd (addExitEvent_active_below100 e1 ha0 hn1)]
  have ha1 : mapGet (mapSet S0.activeTrades 0 (recordExitEvent tr0 e1)) 0
      = some (recordExitEvent tr0 e1) := mapGet_mapSet_self _ _ _
  have h120 : totalExitPercentage (recordExitEvent (recordExitEvent tr0 e1) e2) = 120 := by
    rw [totalExitPercentage_recordExitEvent, totalExitPercentage_recordExitEvent, h0]
    norm_num [he1def, he2def]
  have hfull : (100 : ℚ)
      ≤ totalExitPercentage (recordExitEvent (recordExitEvent tr0 e1) e2) := by
    rw [h120]
    norm_num
  rw [congrArg Prod.snd (addExitEvent_active_full e2 ha1 hfull)]
  rw [getTrade_of_inactive (mapGet_mapDelete_self _ _)]
  rw [mapGet_mapSet_self]
  rw [Option.map_some']
  rw [h120]

/-- C2 (amended): over every reachable `TradeStateManager` state whose exit
events carry non-negative percentages, the sum of `exitPercentage` over a
trade's exits is non-negative, and whenever it reaches (or exceeds) 100 —
in particular when it equals exactly 100 — the trade's status is
`fully_exited`, not `stopped_out` or `expired`.  The sum is not bounded by
100 (see the counterexample). -/
theorem c2_exit_accounting (S : TradeStateManager)
    (h : ReachableTSM (fun q => 0 ≤ q) S) (id : Nat) (tr : TradeEntry)
    (htr : getTrade S id = some tr) :
    0 ≤ totalExitPercentage tr ∧
    (100 ≤ totalExitPercentage tr → tr.status = TradeStatus.fully_exited) := by
  have h2 := reachableTSM_exit_inv h id tr htr
  exact ⟨h2.1, fun h3 => (h2.2 h3).1⟩

/-- C2 witness: the amended theorem applied at the state holding one
freshly created trade. -/
theorem c2_witness :
    ReachableTSM (fun q => 0 ≤ q)
      (createTradeEntry TradeStateManager.empty "alice" "sig1" "0xSAFE" "arbitrum" "FOO"
        ⟨100, 105, some 110, 95, 1000⟩).2 ∧
    getTrade (createTradeEntry TradeStateManager.empty "alice" "sig1" "0xSAFE" "arbitrum"
        "FOO" ⟨100, 105, some 110, 95, 1000⟩).2 0
      = some (createTradeEntry TradeStateManager.empty "alice" "sig1" "0xSAFE" "arbitrum"
        "FOO" ⟨100, 105, some 110, 95, 1000⟩).1 ∧
    (0 ≤ totalExitPercentage (createTradeEntry TradeStateManager.empty "alice" "sig1"
        "0xSAFE" "arbitrum" "FOO" ⟨100, 105, some 110, 95, 1000⟩).1 ∧
     (100 ≤ totalExitPercentage (createTradeEntry TradeStateManager.empty "alice" "sig1"
        "0xSAFE" "arbitrum" "FOO" ⟨100, 105, some 110, 95, 1000⟩).1 →
      (createTradeEntry TradeStateManager.empty "alice" "sig1" "0xSAFE" "arbitrum" "FOO"
        ⟨100, 105, some 110, 95, 1000⟩).1.status = TradeStatus.fully_exited)) :=
  ⟨ReachableTSM.create _ _ _ _ _ _ _ ReachableTSM.empty, rfl,
    c2_exit_accounting _ (ReachableTSM.create _ _ _ _ _ _ _ ReachableTSM.empty) 0 _ rfl⟩

/-- C3 (amended): `updateTradeStatus` validates nothing — it applies any
requested status to any active trade (the update reports success and the
stored status is exactly the requested one, so `pending` can jump straight
to `partially_exited` and a `failed` trade can change status).  Only the
three statuses that move the trade to history (`fully_exited`,
`stopped_out`, `expired`) are absorbing for `updateTradeStatus`, because
the trade leaves the active map; `failed` trades stay active and mutable. -/
theorem c3_updateTradeStatus_behavior (S : TradeStateManager) (id : Nat)
    (st : TradeStatus) (tx : Option String) (tr : TradeEntry)
    (hActive : mapGet S.activeTrades id = some tr) :
    (updateTradeStatus S id st tx).1 = true ∧
    (applyStatus tr st tx).status = st ∧
    (isHistoryStatus st = true →
      mapGet (updateTradeStatus S id st tx).2.activeTrades id = none ∧
      mapGet (updateTradeStatus S id st tx).2.tradeHistory id
        = some (applyStatus tr st tx) ∧
      (∀ st2 tx2, updateTradeStatus (updateTradeStatus S id st tx).2 id st2 tx2
          = (false, (updateTradeStatus S id st tx).2))) ∧
    (isHistoryStatus st = false →
      mapGet (updateTradeStatus S id st tx).2.activeTrades id
        = some (applyStatus tr st tx)) := by
  refine ⟨?_, rfl, ?_, ?_⟩
  · cases hst : isHistoryStatus st
    · rw [updateTradeStatus_found_kept st tx hActive hst]
    · rw [updateTradeStatus_found_moved st tx hActive hst]
  · intro hst
    rw [updateTradeStatus_found_moved st tx hActive hst]
    refine ⟨mapGet_mapDelete_self _ _, mapGet_mapSet_self _ _ _, ?_⟩
    intro st2 tx2
    exact updateTradeStatus_not_found st2 tx2 (mapGet_mapDelete_self _ _)
  · intro hst
    rw [updateTradeStatus_found_kept st tx hActive hst]
    exact mapGet_mapSet_self _ _ _

/-- C3 counterexample: a trade already in the claimed-terminal `failed`
status is updated to `entered`: the operation succeeds and the status
changes, so terminal states are not absorbing and transitions skip the
claimed order (`pending → failed → entered` without ever entering). -/
theorem c3_counterexample :
    (updateTradeStatus (updateTradeStatus (createTradeEntry TradeStateManager.empty
        "alice" "sig1" "0xSAFE" "arbitrum" "FOO" ⟨100, 105, some 110, 95, 1000⟩).2
        0 TradeStatus.failed none).2 0 TradeStatus.entered none).1 = true ∧
    (mapGet (updateTradeStatus (updateTradeStatus (createTradeEntry TradeStateManager.empty
        "alice" "sig1" "0xSAFE" "arbitrum" "FOO" ⟨100, 105, some 110, 95, 1000⟩).2
        0 TradeStatus.failed none).2 0 TradeStatus.entered none).2.activeTrades 0).map
        TradeEntry.status = some TradeStatus.entered :=
  ⟨rfl, rfl⟩

/-- C3 witness: the amended theorem applied at a freshly created trade and
the `stopped_out` status. -/
theorem c3_witness :
    mapGet (createTradeEntry TradeStateManager.empty "alice" "sig1" "0xSAFE" "arbitrum"
        "FOO" ⟨100, 105, some 110, 95, 1000⟩).2.activeTrades 0
      = some (createTradeEntry TradeStateManager.empty "alice" "sig1" "0xSAFE" "arbitrum"
        "FOO" ⟨100, 105, some 110, 95, 1000⟩).1 ∧
    ((updateTradeStatus (createTradeEntry TradeStateManager.empty "alice" "sig1" "0xSAFE"
        "arbitrum" "FOO" ⟨100, 105, some 110, 95, 1000⟩).2 0 TradeStatus.stopped_out
        none).1 = true ∧
     (applyStatus (createTradeEntry TradeStateManager.empty "alice" "sig1" "0xSAFE"
        "arbitrum" "FOO" ⟨100, 105, some 110, 95, 1000⟩).1 TradeStatus.stopped_out
        none).status = TradeStatus.stopped_out ∧
     (isHistoryStatus TradeStatus.stopped_out = true →
      mapGet (updateTradeStatus (createTradeEntry TradeStateManager.empty "alice" "sig1"
          "0xSAFE" "arbitrum" "FOO" ⟨100, 105, some 110, 95, 1000⟩).2 0
          TradeStatus.stopped_out none).2.activeTrades 0 = none ∧
      mapGet (updateTradeStatus (createTradeEntry TradeStateManager.empty "alice" "sig1"
          "0xSAFE" "arbitrum" "FOO" ⟨100, 105, some 110, 95, 1000⟩).2 0
          TradeStatus.stopped_out none).2.tradeHistory 0
        = some (applyStatus (createTradeEntry TradeStateManager.empty "alice" "sig1"
          "0xSAFE" "arbitrum" "FOO" ⟨100, 105, some 110, 95, 1000⟩).1
          TradeStatus.stopped_out none) ∧
      (∀ st2 tx2, updateTradeStatus (updateTradeStatus (createTradeEntry
          TradeStateManager.empty "alice" "sig1" "0xSAFE" "arbitrum" "FOO"
          ⟨100, 105, some 110, 95, 1000⟩).2 0 TradeStatus.stopped_out none).2 0 st2 tx2
          = (false, (updateTradeStatus (createTradeEntry TradeStateManager.empty "alice"
          "sig1" "0xSAFE" "arbitrum" "FOO" ⟨100, 105, some 110, 95, 1000⟩).2 0
          TradeStatus.stopped_out none).2))) ∧
     (isHistoryStatus TradeStatus.stopped_out = false →
      mapGet (updateTradeStatus (createTradeEntry TradeStateManager.empty "alice" "sig1"
          "0xSAFE" "arbitrum" "FOO" ⟨100, 105, some 110, 95, 1000⟩).2 0
          TradeStatus.stopped_out none).2.activeTrades 0
        = some (applyStatus (createTradeEntry TradeStateManager.empty "alice" "sig1"
          "0xSAFE" "arbitrum" "FOO" ⟨100, 105, some 110, 95, 1000⟩).1
          TradeStatus.stopped_out none))) :=
  ⟨rfl, c3_updateTradeStatus_behavior _ 0 TradeStatus.stopped_out none _ rfl⟩

/-- C10: over every reachable state, a trade id is bound in at most one of
`activeTrades`/`tradeHistory`; `getTrade` answers from whichever map holds
the trade; `updateTradeStatus` moves an active trade to history exactly for
`fully_exited`/`stopped_out`/`expired`, and `addExitEvent` moves it exactly
when the exit sum reaches 100 (in which case the stored status is
`fully_exited`); a trade set to `failed` stays in the active map and is
still reported by `getActiveTrades`. -/
theorem c10_trade_store_partition (S : TradeStateManager)
    (h : ReachableTSM (fun _ => True) S) (id : Nat) :
    (¬ ((mapGet S.activeTrades id).isSome = true ∧
        (mapGet S.tradeHistory id).isSome = true)) ∧
    (∀ tr, mapGet S.activeTrades id = some tr → getTrade S id = some tr) ∧
    (∀ tr, mapGet S.activeTrades id = none → mapGet S.tradeHistory id = some tr →
        getTrade S id = some tr) ∧
    (∀ st tx tr, mapGet S.activeTrades id = some tr →
        ((mapGet (updateTradeStatus S id st tx).2.tradeHistory id).isSome = true
          ↔ isHistoryStatus st = true)) ∧
    (∀ e tr, mapGet S.activeTrades id = some tr →
        ((mapGet (addExitEvent S id e).2.tradeHistory id).isSome = true
          ↔ 100 ≤ totalExitPercentage tr + e.exitPercentage) ∧
        (100 ≤ totalExitPercentage tr + e.exitPercentage →
          mapGet (addExitEvent S id e).2.tradeHistory id
            = some (recordExitEvent tr e) ∧
          (recordExitEvent tr e).status = TradeStatus.fully_exited)) ∧
    (∀ tx tr, mapGet S.activeTrades id = some tr →
        mapGet (updateTradeStatus S id TradeStatus.failed tx).2.activeTrades id
          = some (applyStatus tr TradeStatus.failed tx) ∧
        applyStatus tr TradeStatus.failed tx
          ∈ getActiveTrades (updateTradeStatus S id TradeStatus.failed tx).2) := by
  obtain ⟨hP, hB⟩ := reachableTSM_partition h
  refine ⟨?_, ?_, ?_, ?_, ?_, ?_⟩
  · rintro ⟨h1, h2⟩
    rw [hP id h1] at h2
    simp at h2
  · intro tr h1
    exact getTrade_of_active h1
  · intro tr h1 h2
    rw [getTrade_of_inactive h1]
    exact h2
  · intro st tx tr h1
    have hh : mapGet S.tradeHistory id = none := hP id (by simp [h1])
    cases hst : isHistoryStatus st
    · rw [updateTradeStatus_found_kept st tx h1 hst]
      simp [hh]
    · rw [updateTradeStatus_found_moved st tx h1 hst]
      simp [mapGet_mapSet_self]
  · intro e tr h1
    have hh : mapGet S.tradeHistory id = none := hP id (by simp [h1])
    constructor
    · by_cases htot : (100 : ℚ) ≤ totalExitPercentage (recordExitEvent tr e)
      · rw [addExitEvent_active_full e h1 htot]
        rw [totalExitPercentage_recordExitEvent] at htot
        simp [mapGet_mapSet_self, htot]
      · rw [addExitEvent_active_below100 e h1 htot]
        rw [totalExitPercentage_recordExitEvent] at htot
        simp [hh, htot]
    · intro h100
      have htot : (100 : ℚ) ≤ totalExitPercentage (recordExitEvent tr e) := by
        rw [totalExitPercentage_recordExitEvent]
        exact h100
      rw [addExitEvent_active_full e h1 htot]
      exact ⟨mapGet_mapSet_self _ _ _, recordExitEvent_status_of_100 tr e h100⟩
  · intro tx tr h1
    rw [updateTradeStatus_found_kept TradeStatus.failed tx h1 rfl]
    exact ⟨mapGet_mapSet_self _ _ _, mem_map_snd_mapSet _ _ _⟩

/-- C10 witness: the theorem applied at the state holding one freshly
created trade at id 0. -/
theorem c10_witness :
    ReachableTSM (fun _ => True)
      (createTradeEntry TradeStateManager.empty "alice" "sig1" "0xSAFE" "arbitrum" "FOO"
        ⟨100, 105, some 110, 95, 1000⟩).2 ∧
    ((¬ ((mapGet (createTradeEntry TradeStateManager.empty "alice" "sig1" "0xSAFE"
          "arbitrum" "FOO" ⟨100, 105, some 110, 95, 1000⟩).2.activeTrades 0).isSome = true ∧
        (mapGet (createTradeEntry TradeStateManager.empty "alice" "sig1" "0xSAFE"
          "arbitrum" "FOO" ⟨100, 105, some 110, 95, 1000⟩).2.tradeHistory 0).isSome = true)) ∧
     (∀ tr, mapGet (createTradeEntry TradeStateManager.empty "alice" "sig1" "0xSAFE"
          "arbitrum" "FOO" ⟨100, 105, some 110, 95, 1000⟩).2.activeTrades 0 = some tr →
        getTrade (createTradeEntry TradeStateManager.empty "alice" "sig1" "0xSAFE"
          "arbitrum" "FOO" ⟨100, 105, some 110, 95, 1000⟩).2 0 = some tr) ∧
     (∀ tr, mapGet (createTradeEntry TradeStateManager.empty "alice" "sig1" "0xSAFE"
          "arbitrum" "FOO" ⟨100, 105, some 110, 95, 1000⟩).2.activeTrades 0 = none →
        mapGet (createTradeEntry TradeStateManager.empty "alice" "sig1" "0xSAFE"
          "arbitrum" "FOO" ⟨100, 105, some 110, 95, 1000⟩).2.tradeHistory 0 = some tr →
        getTrade (createTradeEntry TradeStateManager.empty "alice" "sig1" "0xSAFE"
          "arbitrum" "FOO" ⟨100, 105, some 110, 95, 1000⟩).2 0 = some tr) ∧
     (∀ st tx tr, mapGet (createTradeEntry TradeStateManager.empty "alice" "sig1" "0xSAFE"
          "arbitrum" "FOO" ⟨100, 105, some 110, 95, 1000⟩).2.activeTrades 0 = some tr →
        ((mapGet (updateTradeStatus (createTradeEntry TradeStateManager.empty "alice"
            "sig1" "0xSAFE" "arbitrum" "FOO" ⟨100, 105, some 110, 95, 1000⟩).2 0 st
            tx).2.tradeHistory 0).isSome = true
          ↔ isHistoryStatus st = true)) ∧
     (∀ e tr, mapGet (createTradeEntry TradeStateManager.empty "alice" "sig1" "0xSAFE"
          "arbitrum" "FOO" ⟨100, 105, some 110, 95, 1000⟩).2.activeTrades 0 = some tr →
        ((mapGet (addExitEvent (createTradeEntry TradeStateManager.empty "alice" "sig1"
            "0xSAFE" "arbitrum" "FOO" ⟨100, 105, some 110, 95, 1000⟩).2 0
            e).2.tradeHistory 0).isSome = true
          ↔ 100 ≤ totalExitPercentage tr + e.exitPercentage) ∧
        (100 ≤ totalExitPercentage tr + e.exitPercentage →
          mapGet (addExitEvent (createTradeEntry TradeStateManager.empty "alice" "sig1"
            "0xSAFE" "arbitrum" "FOO" ⟨100, 105, some 110, 95, 1000⟩).2 0
            e).2.tradeHistory 0 = some (recordExitEvent tr e) ∧
          (recordExitEvent tr e).status = TradeStatus.fully_exited)) ∧
     (∀ tx tr, mapGet (createTradeEntry TradeStateManager.empty "alice" "sig1" "0xSAFE"
          "arbitrum" "FOO" ⟨100, 105, some 110, 95, 1000⟩).2.activeTrades 0 = some tr →
        mapGet (updateTradeStatus (createTradeEntry TradeStateManager.empty "alice" "sig1"
            "0xSAFE" "arbitrum" "FOO" ⟨100, 105, some 110, 95, 1000⟩).2 0
            TradeStatus.failed tx).2.activeTrades 0
          = some (applyStatus tr TradeStatus.failed tx) ∧
        applyStatus tr TradeStatus.failed tx
          ∈ getActiveTrades (updateTradeStatus (createTradeEntry TradeStateManager.empty
            "alice" "sig1" "0xSAFE" "arbitrum" "FOO" ⟨100, 105, some 110, 95, 1000⟩).2 0
            TradeStatus.failed tx).2)) :=
  ⟨ReachableTSM.create _ _ _ _ _ _ _ ReachableTSM.empty,
    c10_trade_store_partition _ (ReachableTSM.create _ _ _ _ _ _ _ ReachableTSM.empty) 0⟩
